import Mathlib

/-!
# ExtendedOptionsImpl.c (Windows): socket option probing and keep-alive accessors

A shallow embedding of `jdk/src/windows/native/java/net/ExtendedOptionsImpl.c`.

The C file talks to two collaborators: Winsock and the JNI environment.  Both are
modelled by explicit state passing over one record `State`.  Everything the
collaborators decide on their own (whether `WSAStartup`, `socket`, `getsockopt`,
`setsockopt`, `FindClass`, `GetFieldID` succeed, and with which error code) is
supplied by a `Host`, a record of arbitrary functions of the current state.  As the
state contains the full log of calls made so far, a `Host` can express every
deterministic sequence of call outcomes.
-/

namespace ExtendedOptions

/-! ## Constants of the platform headers -/

/-- Modelled from the spec: the platform's "option not recognized at this protocol
level" error code.  The macro is declared in winsock2.h, which is not among the
sources; its value there is 10042. -/
def WSAENOPROTOOPT : Int := 10042

/-- Modelled from the spec: the error code for "protocol family unsupported by the
host" (winsock2.h, value 10046). -/
def WSAEPFNOSUPPORT : Int := 10046

/-- Modelled from the spec: the error code for "address family unsupported by the
host" (winsock2.h, value 10047). -/
def WSAEAFNOSUPPORT : Int := 10047

/-- Modelled from the spec: error code set by Winsock calls made while the
networking subsystem is not initialised (winsock2.h, value 10093). -/
def WSANOTINITIALISED : Int := 10093

/-- Modelled from the spec: error code set by Winsock calls on a descriptor that is
not an open socket (winsock2.h, value 10038). -/
def WSAENOTSOCK : Int := 10038

/-- Modelled from the spec: the error code "too many open sockets", an example of a
failure unrelated to protocol support (winsock2.h, value 10024). -/
def WSAEMFILE : Int := 10024

/-- Modelled from the spec: the failure return value of Winsock calls
(winsock2.h, value -1). -/
def SOCKET_ERROR : Int := -1

/-- Modelled from the spec: the handle value that `socket` returns on failure.
winsock2.h declares it as the all-ones bit pattern; handles are integers here and the
pattern reads as -1, which is also how the JDK keeps a handle in `FileDescriptor.fd`. -/
def INVALID_SOCKET : Int := -1

/-- Modelled from the spec: the fallback address family, IPv4 (winsock2.h, value 2). -/
def PF_INET : Int := 2

/-- Modelled from the spec: the preferred address family, IPv6 (winsock2.h, value 23). -/
def PF_INET6 : Int := 23

/-- Modelled from the spec: the stream socket type (winsock2.h, value 1). -/
def SOCK_STREAM : Int := 1

/-- Modelled from the spec: the TCP protocol level (winsock2.h, value 6). -/
def IPPROTO_TCP : Int := 6

/-- Modelled from the spec: the idle-time keep-alive option (ws2ipdef.h, value 3). -/
def TCP_KEEPIDLE : Int := 3

/-- Modelled from the spec: the probe-count keep-alive option (ws2ipdef.h, value 16). -/
def TCP_KEEPCNT : Int := 16

/-- Modelled from the spec: the probe-interval keep-alive option (ws2ipdef.h, value 17). -/
def TCP_KEEPINTVL : Int := 17

/-- Modelled from the spec: the JNI boolean false (jni.h, value 0). -/
def JNI_FALSE : Int := 0

/-- Modelled from the spec: the JNI boolean true (jni.h, value 1). -/
def JNI_TRUE : Int := 1

/-- The null pointer, for `jclass` and `jfieldID` values. -/
def NULL : Int := 0

/-- The size in bytes of a `jint`, that is `sizeof(optval)` and `sizeof(one)`. -/
def sizeof_jint : Nat := 4

/-! ## State of the collaborators -/

/-- A Java exception raised through the JNI environment: its class, its message and,
when it was raised "with last error", the OS error code whose text it carries. -/
structure Throwable where
  className : String
  message : String
  lastError : Option Int
deriving DecidableEq, Repr

/-- A Winsock call together with its arguments and its return value. -/
inductive Call where
  | WSAStartup (ret : Int)
  | socket (af ty protocol : Int) (ret : Int)
  | getsockopt (sock level optname : Int) (optlen : Nat) (ret : Int)
  | setsockopt (sock level optname : Int) (optval : Int) (optlen : Nat) (ret : Int)
  | closesocket (sock : Int) (ret : Int)
  | WSACleanup (ret : Int)
deriving DecidableEq, Repr

/-- One line of the Winsock log: the call, and the value `WSAGetLastError` yields
right after it returned. -/
structure Entry where
  call : Call
  lastError : Int
deriving DecidableEq, Repr

/-- A JNI lookup or field read together with its arguments. -/
inductive JNICall where
  | FindClass (name : String)
  | GetFieldID (clazz : Int) (name sig : String)
  | GetIntField (obj fieldID : Int)
deriving DecidableEq, Repr

/-- Everything the C file can read or change: its two static variables, the JNI
environment (pending exception, log of lookups) and Winsock (initialisation
reference count, open handles, last error, option values, log of calls). -/
structure State where
  sf_fd_fdID : Int
  initialized : Int
  pending : Option Throwable
  jni : List JNICall
  wsaRefs : Nat
  sockets : List Int
  lastError : Int
  sockopts : List ((Int × Int × Int) × Nat)
  calls : List Entry
deriving DecidableEq, Repr

/-- Outcome of a Winsock call as the host decides it. -/
inductive Outcome where
  | success
  | failure (wsaError : Int)
deriving DecidableEq, Repr

/-- The choices of the collaborators.  Each choice may depend on the whole state,
which includes the logs, so any deterministic sequence of outcomes is a `Host`.
The Java heap is not written by the C file, so `intField` depends on the object and
the field only. -/
structure Host where
  startup : State → Int
  newSocket : State → Int → Int → Int → Outcome
  getOpt : State → Int → Int → Int → Outcome
  setOpt : State → Int → Int → Int → Int → Outcome
  defaultOpt : Int → Int → Int → Nat
  findClass : State → String → Int
  fieldID : State → Int → String → String → Int
  intField : Int → Int → Int

/-! ## Winsock -/

/-- Append a call to the Winsock log, with the last error in effect after it. -/
def record (s : State) (c : Call) : State :=
  { s with calls := s.calls ++ [⟨c, s.lastError⟩] }

/-- The low `len` bytes of a `jint`, as an unsigned number. -/
def bitsOfJint (v : Int) (len : Nat) : Nat := (v % 2 ^ (8 * len)).toNat

/-- The `jint` whose four bytes are the low four bytes of `n` (two's complement). -/
def jintOfBits (n : Nat) : Int :=
  if n % 2 ^ 32 < 2 ^ 31 then (n % 2 ^ 32 : Nat) else (n % 2 ^ 32 : Nat) - 2 ^ 32

/-- Winsock `WSAGetLastError`: the error code of the last failed call. -/
def WSAGetLastError (s : State) : Int := s.lastError

/-- Winsock `WSAStartup`: returns 0 and takes one more reference on the networking
subsystem, or returns an error code and takes none. -/
def WSAStartup (h : Host) (s : State) : Int × State :=
  let ret := h.startup s
  if ret = 0 then (ret, record { s with wsaRefs := s.wsaRefs + 1 } (Call.WSAStartup ret))
  else (ret, record s (Call.WSAStartup ret))

/-- Winsock `WSACleanup`: drops one reference on the networking subsystem. -/
def WSACleanup (s : State) : Int × State :=
  if 0 < s.wsaRefs then (0, record { s with wsaRefs := s.wsaRefs - 1 } (Call.WSACleanup 0))
  else (SOCKET_ERROR,
    record { s with lastError := WSANOTINITIALISED } (Call.WSACleanup SOCKET_ERROR))

/-- A handle that is neither open nor `INVALID_SOCKET`. -/
def freshHandle (s : State) : Int := s.sockets.foldl max 0 + 1

/-- Winsock `socket`: on success a fresh handle is opened and returned; on failure
the error code is stored and `INVALID_SOCKET` returned. -/
def socket (h : Host) (af ty protocol : Int) (s : State) : Int × State :=
  match h.newSocket s af ty protocol with
  | Outcome.success =>
      let sock := freshHandle s
      (sock, record { s with sockets := sock :: s.sockets } (Call.socket af ty protocol sock))
  | Outcome.failure e =>
      (INVALID_SOCKET,
        record { s with lastError := e } (Call.socket af ty protocol INVALID_SOCKET))

/-- Winsock `closesocket`: closes an open handle. -/
def closesocket (sock : Int) (s : State) : Int × State :=
  if sock ∈ s.sockets then
    (0, record { s with sockets := s.sockets.erase sock } (Call.closesocket sock 0))
  else (SOCKET_ERROR,
    record { s with lastError := WSAENOTSOCK } (Call.closesocket sock SOCKET_ERROR))

/-- The bytes Winsock holds for an option of a socket: the value of the last
successful `setsockopt`, or the host's default when there was none. -/
def optionBits (h : Host) (sock level optname : Int) (s : State) : Nat :=
  match s.sockopts.lookup (sock, level, optname) with
  | some bits => bits
  | none => h.defaultOpt sock level optname

/-- Winsock `setsockopt` on a `jint` buffer of `optlen` bytes: on success the bytes
are stored and 0 returned; on failure the error code is stored and `SOCKET_ERROR`
returned. -/
def setsockopt (h : Host) (sock level optname : Int) (optval : Int) (optlen : Nat)
    (s : State) : Int × State :=
  match h.setOpt s sock level optname optval with
  | Outcome.success =>
      (0, record { s with sockopts := ((sock, level, optname), bitsOfJint optval optlen)
                            :: s.sockopts }
            (Call.setsockopt sock level optname optval optlen 0))
  | Outcome.failure e =>
      (SOCKET_ERROR, record { s with lastError := e }
            (Call.setsockopt sock level optname optval optlen SOCKET_ERROR))

/-- Winsock `getsockopt` into a `jint` buffer of `optlen` bytes whose previous
content is `optval`: on success the buffer receives the stored bytes and 0 is
returned; on failure the buffer is left alone, the error code is stored and
`SOCKET_ERROR` returned.  The result is the return value and the buffer. -/
def getsockopt (h : Host) (sock level optname : Int) (optval : Int) (optlen : Nat)
    (s : State) : (Int × Int) × State :=
  match h.getOpt s sock level optname with
  | Outcome.success =>
      ((0, jintOfBits (optionBits h sock level optname s % 2 ^ (8 * optlen))),
        record s (Call.getsockopt sock level optname optlen 0))
  | Outcome.failure e =>
      ((SOCKET_ERROR, optval),
        record { s with lastError := e }
          (Call.getsockopt sock level optname optlen SOCKET_ERROR))

/-! ## JNI -/

/-- Modelled from the spec: `JNU_ThrowByName` of jni_util.c, which is not among the
sources.  It signals the named condition with the given message. -/
def JNU_ThrowByName (s : State) (name msg : String) : State :=
  { s with pending := some ⟨name, msg, none⟩ }

/-- Modelled from the spec: `JNU_ThrowByNameWithLastError` of jni_util.c, which is
not among the sources.  It signals the named condition "carrying the OS error text
and the attempted operation's description": the description is the message and the
OS error is the last error code. -/
def JNU_ThrowByNameWithLastError (s : State) (name defaultDetail : String) : State :=
  { s with pending := some ⟨name, defaultDetail, some s.lastError⟩ }

/-- JNI `FindClass`: the class reference, or `NULL` with a pending
`NoClassDefFoundError`. -/
def FindClass (h : Host) (name : String) (s : State) : Int × State :=
  let c := h.findClass s name
  let s1 := { s with jni := s.jni ++ [JNICall.FindClass name] }
  if c = NULL then
    (NULL, { s1 with pending := some ⟨"java/lang/NoClassDefFoundError", name, none⟩ })
  else (c, s1)

/-- JNI `GetFieldID`: the field ID, or `NULL` with a pending `NoSuchFieldError`. -/
def GetFieldID (h : Host) (clazz : Int) (name sig : String) (s : State) : Int × State :=
  let f := h.fieldID s clazz name sig
  let s1 := { s with jni := s.jni ++ [JNICall.GetFieldID clazz name sig] }
  if f = NULL then
    (NULL, { s1 with pending := some ⟨"java/lang/NoSuchFieldError", name, none⟩ })
  else (f, s1)

/-- JNI `GetIntField`: reads an `int` field of a Java object. -/
def GetIntField (h : Host) (obj fieldID : Int) (s : State) : Int × State :=
  (h.intField obj fieldID, { s with jni := s.jni ++ [JNICall.GetIntField obj fieldID] })

/-! ## The C file -/

/-- The C function `handleError` (lines 37-47). -/
def handleError (s : State) (rv : Int) (errmsg : String) : State :=
  if rv < 0 then
    let error := WSAGetLastError s
    if error = WSAENOPROTOOPT then
      JNU_ThrowByName s "java/lang/UnsupportedOperationException" "unsupported socket option"
    else
      JNU_ThrowByNameWithLastError s "java/net/SocketException" errmsg
  else s

/-- The C function `socketOptionSupported` (lines 49-87).  `rest` is the code from
line 74 on, reached from both places where a socket has been obtained. -/
def socketOptionSupported (h : Host) (level optname : Int) (s : State) : Int × State :=
  let (error, s1) := WSAStartup h s
  if error ≠ 0 then (0, s1)
  else
    let one : Int := 1
    let sz : Nat := sizeof_jint
    let rest := fun (sock : Int) (s3 : State) =>
      let ((rv, _), s4) := getsockopt h sock level optname one sz s3
      let error := WSAGetLastError s4
      let rv : Int := if rv ≠ 0 ∧ error = WSAENOPROTOOPT then 0 else 1
      let (_, s5) := closesocket sock s4
      let (_, s6) := WSACleanup s5
      (rv, s6)
    let (sock, s2) := socket h PF_INET6 SOCK_STREAM IPPROTO_TCP s1
    if sock = INVALID_SOCKET then
      let error := WSAGetLastError s2
      let (sock, s3) :=
        if error = WSAEPFNOSUPPORT ∨ error = WSAEAFNOSUPPORT then
          socket h PF_INET SOCK_STREAM IPPROTO_TCP s2
        else (sock, s2)
      if sock = INVALID_SOCKET then (0, s3)
      else rest sock s3
    else rest sock s2

/-- The C function `getFD` (lines 121-123). -/
def getFD (h : Host) (fileDesc : Int) (s : State) : Int × State :=
  GetIntField h fileDesc s.sf_fd_fdID s

/-- The JNI entry point `Java_sun_net_ExtendedOptionsImpl_setFlowOption`
(lines 127-131). -/
def Java_sun_net_ExtendedOptionsImpl_setFlowOption (_fileDesc _flow : Int) (s : State) :
    State :=
  JNU_ThrowByName s "java/lang/UnsupportedOperationException" "unsupported socket option"

/-- The JNI entry point `Java_sun_net_ExtendedOptionsImpl_getFlowOption`
(lines 133-137). -/
def Java_sun_net_ExtendedOptionsImpl_getFlowOption (_fileDesc _flow : Int) (s : State) :
    State :=
  JNU_ThrowByName s "java/lang/UnsupportedOperationException" "unsupported socket option"

/-- The C function `flowSupported0` (lines 139-141). -/
def flowSupported0 : Int := JNI_FALSE

/-- The JNI entry point `Java_sun_net_ExtendedOptionsImpl_flowSupported`
(lines 143-146). -/
def Java_sun_net_ExtendedOptionsImpl_flowSupported (s : State) : Int × State :=
  (JNI_FALSE, s)

/-- The JNI entry point `Java_sun_net_ExtendedOptionsImpl_keepAliveOptionsSupported`
(lines 155-159).  The C operator `&&` evaluates its right operand only when the left
one is non-zero, and yields 0 or 1. -/
def Java_sun_net_ExtendedOptionsImpl_keepAliveOptionsSupported (h : Host) (s : State) :
    Int × State :=
  let (r1, s1) := socketOptionSupported h IPPROTO_TCP TCP_KEEPIDLE s
  if r1 = 0 then (0, s1)
  else
    let (r2, s2) := socketOptionSupported h IPPROTO_TCP TCP_KEEPCNT s1
    if r2 = 0 then (0, s2)
    else
      let (r3, s3) := socketOptionSupported h IPPROTO_TCP TCP_KEEPINTVL s2
      if r3 = 0 then (0, s3) else (1, s3)

/-- The JNI entry point `Java_sun_net_ExtendedOptionsImpl_setTcpKeepAliveProbes`
(lines 166-171). -/
def Java_sun_net_ExtendedOptionsImpl_setTcpKeepAliveProbes (h : Host)
    (fileDesc optval : Int) (s : State) : State :=
  let (fd, s1) := getFD h fileDesc s
  let (rv, s2) := setsockopt h fd IPPROTO_TCP TCP_KEEPCNT optval sizeof_jint s1
  handleError s2 rv "set option TCP_KEEPCNT failed"

/-- The JNI entry point `Java_sun_net_ExtendedOptionsImpl_setTcpKeepAliveTime`
(lines 178-183). -/
def Java_sun_net_ExtendedOptionsImpl_setTcpKeepAliveTime (h : Host)
    (fileDesc optval : Int) (s : State) : State :=
  let (fd, s1) := getFD h fileDesc s
  let (rv, s2) := setsockopt h fd IPPROTO_TCP TCP_KEEPIDLE optval sizeof_jint s1
  handleError s2 rv "set option TCP_KEEPIDLE failed"

/-- The JNI entry point `Java_sun_net_ExtendedOptionsImpl_setTcpKeepAliveIntvl`
(lines 190-195). -/
def Java_sun_net_ExtendedOptionsImpl_setTcpKeepAliveIntvl (h : Host)
    (fileDesc optval : Int) (s : State) : State :=
  let (fd, s1) := getFD h fileDesc s
  let (rv, s2) := setsockopt h fd IPPROTO_TCP TCP_KEEPINTVL optval sizeof_jint s1
  handleError s2 rv "set option TCP_KEEPINTVL failed"

/-- The JNI entry point `Java_sun_net_ExtendedOptionsImpl_getTcpKeepAliveProbes`
(lines 202-210).  `optval0` is the indeterminate initial content of the local
variable `optval`, which the function returns when `getsockopt` does not write it. -/
def Java_sun_net_ExtendedOptionsImpl_getTcpKeepAliveProbes (h : Host)
    (fileDesc : Int) (optval0 : Int) (s : State) : Int × State :=
  let (fd, s1) := getFD h fileDesc s
  let sz : Nat := sizeof_jint
  let ((rv, optval), s2) := getsockopt h fd IPPROTO_TCP TCP_KEEPCNT optval0 sz s1
  let s3 := handleError s2 rv "get option TCP_KEEPCNT failed"
  (optval, s3)

/-- The JNI entry point `Java_sun_net_ExtendedOptionsImpl_getTcpKeepAliveTime`
(lines 217-225), with `optval0` as in `getTcpKeepAliveProbes`. -/
def Java_sun_net_ExtendedOptionsImpl_getTcpKeepAliveTime (h : Host)
    (fileDesc : Int) (optval0 : Int) (s : State) : Int × State :=
  let (fd, s1) := getFD h fileDesc s
  let sz : Nat := sizeof_jint
  let ((rv, optval), s2) := getsockopt h fd IPPROTO_TCP TCP_KEEPIDLE optval0 sz s1
  let s3 := handleError s2 rv "get option TCP_KEEPIDLE failed"
  (optval, s3)

/-- The JNI entry point `Java_sun_net_ExtendedOptionsImpl_getTcpKeepAliveIntvl`
(lines 232-240), with `optval0` as in `getTcpKeepAliveProbes`. -/
def Java_sun_net_ExtendedOptionsImpl_getTcpKeepAliveIntvl (h : Host)
    (fileDesc : Int) (optval0 : Int) (s : State) : Int × State :=
  let (fd, s1) := getFD h fileDesc s
  let sz : Nat := sizeof_jint
  let ((rv, optval), s2) := getsockopt h fd IPPROTO_TCP TCP_KEEPINTVL optval0 sz s1
  let s3 := handleError s2 rv "get option TCP_KEEPINTVL failed"
  (optval, s3)

/-! ## Concrete hosts and states, used to run the code -/

/-- A state in which nothing has happened yet: statics zeroed, nothing pending,
Winsock not initialised, no open socket. -/
def idle : State :=
  { sf_fd_fdID := 0, initialized := 0, pending := none, jni := [], wsaRefs := 0,
    sockets := [], lastError := 0, sockopts := [], calls := [] }

/-- A host with fixed outcomes: `WSAStartup` returns `startup`, an IPv6 socket
request has outcome `v6`, any other socket request `v4`, every `getsockopt` has
outcome `get` and every `setsockopt` outcome `set`.  Class and field lookups succeed,
and the `fd` field of the object with reference `r` holds `r + 100`. -/
def fixedHost (startup : Int) (v6 v4 get set : Outcome) : Host :=
  { startup := fun _ => startup,
    newSocket := fun _ af _ _ => if af = PF_INET6 then v6 else v4,
    getOpt := fun _ _ _ _ => get,
    setOpt := fun _ _ _ _ _ => set,
    defaultOpt := fun _ _ _ => 0,
    findClass := fun _ _ => 1,
    fieldID := fun _ _ _ _ => 2,
    intField := fun obj _ => obj + 100 }


/-- Whether a log line is a `closesocket` call on the handle `sock`. -/
def isCloseOf (sock : Int) (e : Entry) : Bool :=
  match e.call with
  | Call.closesocket k _ => k == sock
  | _ => false

/-- The error classification of an accessor, read off the state `s` before and the
state `t` after it, where `outcome` is the host's answer to the accessor's Winsock
call: exactly one Winsock call `call rv` was made, and its return value and last
error are those of `outcome`; when it returned 0 nothing was raised; when it failed
with last error `WSAENOPROTOOPT` an `UnsupportedOperationException` is pending; when
it failed with another error a `SocketException` is pending that carries that error
and a non-empty message containing `optname`. -/
def Classified (s t : State) (outcome : Outcome) (call : Int → Call) (optname : String) :
    Prop :=
  ∃ rv err, t.calls = s.calls ++ [⟨call rv, err⟩] ∧ (rv = 0 ∨ rv = SOCKET_ERROR) ∧
    (outcome = Outcome.success → rv = 0) ∧
    (∀ e, outcome = Outcome.failure e → rv = SOCKET_ERROR ∧ err = e) ∧
    (rv = 0 → t.pending = s.pending) ∧
    (rv ≠ 0 → err = WSAENOPROTOOPT → t.pending =
      some ⟨"java/lang/UnsupportedOperationException", "unsupported socket option", none⟩) ∧
    (rv ≠ 0 → err ≠ WSAENOPROTOOPT → ∃ msg, t.pending =
      some ⟨"java/net/SocketException", msg, some err⟩ ∧ msg ≠ "" ∧
      optname.toList <:+: msg.toList)

/-- A host on which `WSAStartup` succeeds and no socket can be created, for lack of
free descriptors. -/
def exhaustedHost : Host :=
  fixedHost 0 (Outcome.failure WSAEMFILE) (Outcome.failure WSAEMFILE)
    Outcome.success Outcome.success

/-- Modelled from the spec: the error code "network subsystem unavailable", which
`WSAStartup` returns when it cannot initialise (winsock2.h, value 10091). -/
def WSASYSNOTREADY : Int := 10091

/-- A host on which the networking subsystem cannot be initialised. -/
def downHost : Host :=
  fixedHost WSASYSNOTREADY Outcome.success Outcome.success Outcome.success Outcome.success

/-- A host without the IPv6 protocol family on which no IPv4 socket can be created
either, for lack of free descriptors. -/
def noFamilyHost : Host :=
  fixedHost 0 (Outcome.failure WSAEPFNOSUPPORT) (Outcome.failure WSAEMFILE)
    Outcome.success Outcome.success

/-- A host without IPv6 on which the probed option is not recognised. -/
def v4Host : Host :=
  fixedHost 0 (Outcome.failure WSAEAFNOSUPPORT) Outcome.success
    (Outcome.failure WSAENOPROTOOPT) Outcome.success

/-- Modelled from the spec: the error code "no buffer space available", another
example of a failure unrelated to protocol support (winsock2.h, value 10055). -/
def WSAENOBUFS : Int := 10055

/-- A host with IPv6 on which the probed option exists and `getsockopt` fails for lack
of buffer space. -/
def starvedHost : Host :=
  fixedHost 0 Outcome.success Outcome.success (Outcome.failure WSAENOBUFS) Outcome.success

/-- A host on which every call succeeds. -/
def obligingHost : Host :=
  fixedHost 0 Outcome.success Outcome.success Outcome.success Outcome.success

/-- A state after `init` in which the socket with handle 107 is open; on `fixedHost`
it is the handle of the descriptor object with reference 7. -/
def connected : State :=
  { idle with sf_fd_fdID := 2, initialized := 1, sockets := [107] }


/-! ## Lemmas about the model and the control flow -/

/-- Folding `max` over a list never goes below the starting value. -/
theorem foldl_max_ge (l : List Int) (a : Int) : a ≤ l.foldl max a := by
  induction l generalizing a with
  | nil => simp
  | cons x xs ih =>
    simp only [List.foldl_cons]
    exact le_trans (le_max_left a x) (ih (max a x))

/-- Folding `max` over a list gives an upper bound of its elements. -/
theorem foldl_max_mem_le (l : List Int) (a x : Int) (hx : x ∈ l) : x ≤ l.foldl max a := by
  induction l generalizing a with
  | nil => simp at hx
  | cons y ys ih =>
    simp only [List.foldl_cons]
    rcases List.mem_cons.mp hx with rfl | hmem
    · exact le_trans (le_max_right a x) (foldl_max_ge ys (max a x))
    · exact ih (max a y) hmem

/-- The handle handed out by `socket` is not open yet. -/
theorem freshHandle_not_open (s : State) : freshHandle s ∉ s.sockets := by
  intro hmem
  have := foldl_max_mem_le s.sockets 0 (freshHandle s) hmem
  unfold freshHandle at this
  omega

/-- The handle handed out by `socket` is not `INVALID_SOCKET`. -/
theorem freshHandle_valid (s : State) : freshHandle s ≠ INVALID_SOCKET := by
  have := foldl_max_ge s.sockets 0
  unfold freshHandle INVALID_SOCKET
  omega

/-- `WSAStartup` when the host lets it succeed. -/
theorem WSAStartup_ok (h : Host) (s : State) (h0 : h.startup s = 0) :
    WSAStartup h s
      = (0, record { s with wsaRefs := s.wsaRefs + 1 } (Call.WSAStartup 0)) := by
  simp [WSAStartup, h0]

/-- `WSAStartup` when the host makes it fail. -/
theorem WSAStartup_fail (h : Host) (s : State) (h0 : h.startup s ≠ 0) :
    WSAStartup h s = (h.startup s, record s (Call.WSAStartup (h.startup s))) := by
  simp [WSAStartup, h0]

/-- `socket` when the host lets it succeed. -/
theorem socket_ok (h : Host) (af ty pr : Int) (s : State)
    (hs : h.newSocket s af ty pr = Outcome.success) :
    socket h af ty pr s
      = (freshHandle s, record { s with sockets := freshHandle s :: s.sockets }
          (Call.socket af ty pr (freshHandle s))) := by
  simp [socket, hs]

/-- `socket` when the host makes it fail with error `e`. -/
theorem socket_fail (h : Host) (af ty pr : Int) (s : State) (e : Int)
    (hs : h.newSocket s af ty pr = Outcome.failure e) :
    socket h af ty pr s
      = (INVALID_SOCKET, record { s with lastError := e }
          (Call.socket af ty pr INVALID_SOCKET)) := by
  simp [socket, hs]

/-- The code from line 74 on, run on an open socket while Winsock is initialised. -/
theorem probe_tail (h : Host) (sock level optname : Int) (s : State)
    (hopen : sock ∈ s.sockets) (hrefs : 0 < s.wsaRefs) :
    ∃ rv e,
      (getsockopt h sock level optname 1 sizeof_jint s).1.1 = rv ∧
      (getsockopt h sock level optname 1 sizeof_jint s).2.lastError = e ∧
      (rv = 0 ∨ rv = SOCKET_ERROR) ∧
      (WSACleanup (closesocket sock (getsockopt h sock level optname 1 sizeof_jint s).2).2).2
        = { s with
            wsaRefs := s.wsaRefs - 1,
            sockets := s.sockets.erase sock,
            lastError := e,
            calls := s.calls ++
              [⟨Call.getsockopt sock level optname sizeof_jint rv, e⟩,
               ⟨Call.closesocket sock 0, e⟩, ⟨Call.WSACleanup 0, e⟩] } := by
  cases hg : h.getOpt s sock level optname with
  | success =>
    refine ⟨0, s.lastError, ?_, ?_, Or.inl rfl, ?_⟩ <;>
      simp [getsockopt, hg, record, closesocket, WSACleanup, hopen, hrefs]
  | failure e =>
    refine ⟨SOCKET_ERROR, e, ?_, ?_, Or.inr rfl, ?_⟩ <;>
      simp [getsockopt, hg, record, closesocket, WSACleanup, hopen, hrefs]

/-- Every run of `socketOptionSupported` follows one of five paths; each is given
with its return value and its complete final state. -/
theorem socketOptionSupported_paths (h : Host) (level optname : Int) (s : State) :
    (∃ r, r ≠ 0 ∧ socketOptionSupported h level optname s =
      (0, { s with calls := s.calls ++ [⟨Call.WSAStartup r, s.lastError⟩] })) ∨
    (∃ e6, ¬ (e6 = WSAEPFNOSUPPORT ∨ e6 = WSAEAFNOSUPPORT) ∧
      socketOptionSupported h level optname s =
      (0, { s with
            wsaRefs := s.wsaRefs + 1,
            lastError := e6,
            calls := s.calls ++
              [⟨Call.WSAStartup 0, s.lastError⟩,
               ⟨Call.socket PF_INET6 SOCK_STREAM IPPROTO_TCP INVALID_SOCKET, e6⟩] })) ∨
    (∃ e6 e4, (e6 = WSAEPFNOSUPPORT ∨ e6 = WSAEAFNOSUPPORT) ∧
      socketOptionSupported h level optname s =
      (0, { s with
            wsaRefs := s.wsaRefs + 1,
            lastError := e4,
            calls := s.calls ++
              [⟨Call.WSAStartup 0, s.lastError⟩,
               ⟨Call.socket PF_INET6 SOCK_STREAM IPPROTO_TCP INVALID_SOCKET, e6⟩,
               ⟨Call.socket PF_INET SOCK_STREAM IPPROTO_TCP INVALID_SOCKET, e4⟩] })) ∨
    (∃ sock rv e, sock ≠ INVALID_SOCKET ∧ sock ∉ s.sockets ∧
      (rv = 0 ∨ rv = SOCKET_ERROR) ∧
      socketOptionSupported h level optname s =
      (if rv ≠ 0 ∧ e = WSAENOPROTOOPT then 0 else 1,
        { s with
            lastError := e,
            calls := s.calls ++
              [⟨Call.WSAStartup 0, s.lastError⟩,
               ⟨Call.socket PF_INET6 SOCK_STREAM IPPROTO_TCP sock, s.lastError⟩,
               ⟨Call.getsockopt sock level optname sizeof_jint rv, e⟩,
               ⟨Call.closesocket sock 0, e⟩,
               ⟨Call.WSACleanup 0, e⟩] })) ∨
    (∃ e6 sock rv e, (e6 = WSAEPFNOSUPPORT ∨ e6 = WSAEAFNOSUPPORT) ∧
      sock ≠ INVALID_SOCKET ∧ sock ∉ s.sockets ∧ (rv = 0 ∨ rv = SOCKET_ERROR) ∧
      socketOptionSupported h level optname s =
      (if rv ≠ 0 ∧ e = WSAENOPROTOOPT then 0 else 1,
        { s with
            lastError := e,
            calls := s.calls ++
              [⟨Call.WSAStartup 0, s.lastError⟩,
               ⟨Call.socket PF_INET6 SOCK_STREAM IPPROTO_TCP INVALID_SOCKET, e6⟩,
               ⟨Call.socket PF_INET SOCK_STREAM IPPROTO_TCP sock, e6⟩,
               ⟨Call.getsockopt sock level optname sizeof_jint rv, e⟩,
               ⟨Call.closesocket sock 0, e⟩,
               ⟨Call.WSACleanup 0, e⟩] })) := by
  by_cases h0 : h.startup s = 0
  · -- WSAStartup succeeded
    have e1 := WSAStartup_ok h s h0
    generalize hs1 : record { s with wsaRefs := s.wsaRefs + 1 } (Call.WSAStartup 0) = s1 at e1
    cases h6 : h.newSocket s1 PF_INET6 SOCK_STREAM IPPROTO_TCP with
    | success =>
      have e2 := socket_ok h PF_INET6 SOCK_STREAM IPPROTO_TCP s1 h6
      have hv := freshHandle_valid s1
      generalize hs2 : record { s1 with sockets := freshHandle s1 :: s1.sockets }
        (Call.socket PF_INET6 SOCK_STREAM IPPROTO_TCP (freshHandle s1)) = s2 at e2
      have hopen : freshHandle s1 ∈ s2.sockets := by subst hs2; simp [record]
      have hrefs : 0 < s2.wsaRefs := by subst hs2; subst hs1; simp [record]
      obtain ⟨rv, e, hrv, he, hrv01, hfin⟩ :=
        probe_tail h (freshHandle s1) level optname s2 hopen hrefs
      have hno : freshHandle s1 ∉ s.sockets := by
        have := freshHandle_not_open s1
        subst hs1; simpa [record] using this
      refine Or.inr (Or.inr (Or.inr (Or.inl ⟨freshHandle s1, rv, e, hv, hno, hrv01, ?_⟩)))
      simp only [socketOptionSupported, e1, e2, hv, ne_eq, not_true_eq_false, reduceIte,
        WSAGetLastError, hrv, he, hfin]
      subst hs2; subst hs1
      simp [record]
    | failure e6 =>
      have e2 := socket_fail h PF_INET6 SOCK_STREAM IPPROTO_TCP s1 e6 h6
      generalize hs2 : record { s1 with lastError := e6 }
        (Call.socket PF_INET6 SOCK_STREAM IPPROTO_TCP INVALID_SOCKET) = s2 at e2
      have hl2 : s2.lastError = e6 := by subst hs2; simp [record]
      by_cases hfb : e6 = WSAEPFNOSUPPORT ∨ e6 = WSAEAFNOSUPPORT
      · cases h4 : h.newSocket s2 PF_INET SOCK_STREAM IPPROTO_TCP with
        | success =>
          have e3 := socket_ok h PF_INET SOCK_STREAM IPPROTO_TCP s2 h4
          have hv := freshHandle_valid s2
          generalize hs3 : record { s2 with sockets := freshHandle s2 :: s2.sockets }
            (Call.socket PF_INET SOCK_STREAM IPPROTO_TCP (freshHandle s2)) = s3 at e3
          have hopen : freshHandle s2 ∈ s3.sockets := by subst hs3; simp [record]
          have hrefs : 0 < s3.wsaRefs := by subst hs3; subst hs2; subst hs1; simp [record]
          obtain ⟨rv, e, hrv, he, hrv01, hfin⟩ :=
            probe_tail h (freshHandle s2) level optname s3 hopen hrefs
          have hno : freshHandle s2 ∉ s.sockets := by
            have := freshHandle_not_open s2
            subst hs2; subst hs1; simpa [record] using this
          refine Or.inr (Or.inr (Or.inr (Or.inr
            ⟨e6, freshHandle s2, rv, e, hfb, hv, hno, hrv01, ?_⟩)))
          simp only [socketOptionSupported, e1, e2, WSAGetLastError, hl2, hfb, e3, hv, ne_eq,
            not_true_eq_false, reduceIte, hrv, he, hfin]
          subst hs3; subst hs2; subst hs1
          simp [record]
        | failure e4 =>
          have e3 := socket_fail h PF_INET SOCK_STREAM IPPROTO_TCP s2 e4 h4
          refine Or.inr (Or.inr (Or.inl ⟨e6, e4, hfb, ?_⟩))
          simp only [socketOptionSupported, e1, e2, WSAGetLastError, hl2, hfb, e3, ne_eq,
            not_true_eq_false, reduceIte]
          subst hs2; subst hs1
          simp [record]
      · refine Or.inr (Or.inl ⟨e6, hfb, ?_⟩)
        simp only [socketOptionSupported, e1, e2, WSAGetLastError, hl2, hfb, ne_eq,
          not_true_eq_false, reduceIte]
        subst hs2; subst hs1
        simp [record]
  · -- WSAStartup failed
    refine Or.inl ⟨h.startup s, h0, ?_⟩
    simp [socketOptionSupported, WSAStartup_fail h s h0, h0, record]

/-- The run in which the host makes `WSAStartup` fail. -/
theorem run_startup_failed (h : Host) (level optname : Int) (s : State)
    (h0 : h.startup s ≠ 0) :
    socketOptionSupported h level optname s =
      (0, { s with calls := s.calls ++ [⟨Call.WSAStartup (h.startup s), s.lastError⟩] }) := by
  simp [socketOptionSupported, WSAStartup_fail h s h0, h0, record]

/-- The run in which the host refuses the IPv6 socket for a reason other than a
missing protocol or address family. -/
theorem run_v6_refused (h : Host) (level optname : Int) (s : State) (e6 : Int)
    (h0 : h.startup s = 0)
    (h6 : h.newSocket (WSAStartup h s).2 PF_INET6 SOCK_STREAM IPPROTO_TCP
      = Outcome.failure e6)
    (hne : ¬ (e6 = WSAEPFNOSUPPORT ∨ e6 = WSAEAFNOSUPPORT)) :
    socketOptionSupported h level optname s =
      (0, { s with
            wsaRefs := s.wsaRefs + 1,
            lastError := e6,
            calls := s.calls ++
              [⟨Call.WSAStartup 0, s.lastError⟩,
               ⟨Call.socket PF_INET6 SOCK_STREAM IPPROTO_TCP INVALID_SOCKET, e6⟩] }) := by
  have e1 := WSAStartup_ok h s h0
  simp only [e1] at h6
  have e2 := socket_fail h PF_INET6 SOCK_STREAM IPPROTO_TCP _ e6 h6
  have hl : WSAGetLastError (record
      { (record { s with wsaRefs := s.wsaRefs + 1 } (Call.WSAStartup 0)) with lastError := e6 }
      (Call.socket PF_INET6 SOCK_STREAM IPPROTO_TCP INVALID_SOCKET)) = e6 := rfl
  simp only [socketOptionSupported, e1, e2, hl, hne, ne_eq, not_true_eq_false, reduceIte]
  simp [record]

/-- The run in which the host has no IPv6 and refuses the IPv4 socket too. -/
theorem run_both_refused (h : Host) (level optname : Int) (s : State) (e6 e4 : Int)
    (h0 : h.startup s = 0)
    (h6 : h.newSocket (WSAStartup h s).2 PF_INET6 SOCK_STREAM IPPROTO_TCP
      = Outcome.failure e6)
    (hfb : e6 = WSAEPFNOSUPPORT ∨ e6 = WSAEAFNOSUPPORT)
    (h4 : h.newSocket (socket h PF_INET6 SOCK_STREAM IPPROTO_TCP (WSAStartup h s).2).2
      PF_INET SOCK_STREAM IPPROTO_TCP = Outcome.failure e4) :
    socketOptionSupported h level optname s =
      (0, { s with
            wsaRefs := s.wsaRefs + 1,
            lastError := e4,
            calls := s.calls ++
              [⟨Call.WSAStartup 0, s.lastError⟩,
               ⟨Call.socket PF_INET6 SOCK_STREAM IPPROTO_TCP INVALID_SOCKET, e6⟩,
               ⟨Call.socket PF_INET SOCK_STREAM IPPROTO_TCP INVALID_SOCKET, e4⟩] }) := by
  have e1 := WSAStartup_ok h s h0
  simp only [e1] at h6 h4
  have e2 := socket_fail h PF_INET6 SOCK_STREAM IPPROTO_TCP _ e6 h6
  simp only [e2] at h4
  have e3 := socket_fail h PF_INET SOCK_STREAM IPPROTO_TCP _ e4 h4
  have hl : WSAGetLastError (record
      { (record { s with wsaRefs := s.wsaRefs + 1 } (Call.WSAStartup 0)) with lastError := e6 }
      (Call.socket PF_INET6 SOCK_STREAM IPPROTO_TCP INVALID_SOCKET)) = e6 := rfl
  simp only [socketOptionSupported, e1, e2, hl, hfb, e3, ne_eq, not_true_eq_false, reduceIte]
  simp [record]

/-- The code from line 74 on, for each answer of the host to the probe `getsockopt`,
run on an open socket while Winsock is initialised. -/
theorem probe_tail_host (h : Host) (sock level optname : Int) (s : State)
    (hopen : sock ∈ s.sockets) (hrefs : 0 < s.wsaRefs) :
    (h.getOpt s sock level optname = Outcome.success →
      (getsockopt h sock level optname 1 sizeof_jint s).1.1 = 0 ∧
      (getsockopt h sock level optname 1 sizeof_jint s).2.lastError = s.lastError ∧
      (WSACleanup (closesocket sock (getsockopt h sock level optname 1 sizeof_jint s).2).2).2
        = { s with
            wsaRefs := s.wsaRefs - 1,
            sockets := s.sockets.erase sock,
            calls := s.calls ++
              [⟨Call.getsockopt sock level optname sizeof_jint 0, s.lastError⟩,
               ⟨Call.closesocket sock 0, s.lastError⟩,
               ⟨Call.WSACleanup 0, s.lastError⟩] }) ∧
    (∀ e, h.getOpt s sock level optname = Outcome.failure e →
      (getsockopt h sock level optname 1 sizeof_jint s).1.1 = SOCKET_ERROR ∧
      (getsockopt h sock level optname 1 sizeof_jint s).2.lastError = e ∧
      (WSACleanup (closesocket sock (getsockopt h sock level optname 1 sizeof_jint s).2).2).2
        = { s with
            wsaRefs := s.wsaRefs - 1,
            sockets := s.sockets.erase sock,
            lastError := e,
            calls := s.calls ++
              [⟨Call.getsockopt sock level optname sizeof_jint SOCKET_ERROR, e⟩,
               ⟨Call.closesocket sock 0, e⟩,
               ⟨Call.WSACleanup 0, e⟩] }) := by
  constructor
  · intro hg
    refine ⟨?_, ?_, ?_⟩ <;>
      simp [getsockopt, hg, record, closesocket, WSACleanup, hopen, hrefs]
  · intro e hg
    refine ⟨?_, ?_, ?_⟩ <;>
      simp [getsockopt, hg, record, closesocket, WSACleanup, hopen, hrefs]

/-- The return value and the final state of `socketOptionSupported` once a probe
socket `p.1` has been obtained in state `p.2`, by the IPv6 request or by the IPv4
request after it: they are those of the code from line 74 on. -/
theorem run_with_socket (h : Host) (level optname : Int) (s : State) (p : Int × State)
    (h0 : h.startup s = 0)
    (hsock :
      (h.newSocket (WSAStartup h s).2 PF_INET6 SOCK_STREAM IPPROTO_TCP = Outcome.success ∧
        p = socket h PF_INET6 SOCK_STREAM IPPROTO_TCP (WSAStartup h s).2) ∨
      (∃ e6, h.newSocket (WSAStartup h s).2 PF_INET6 SOCK_STREAM IPPROTO_TCP
          = Outcome.failure e6 ∧
        (e6 = WSAEPFNOSUPPORT ∨ e6 = WSAEAFNOSUPPORT) ∧
        h.newSocket (socket h PF_INET6 SOCK_STREAM IPPROTO_TCP (WSAStartup h s).2).2
          PF_INET SOCK_STREAM IPPROTO_TCP = Outcome.success ∧
        p = socket h PF_INET SOCK_STREAM IPPROTO_TCP
          (socket h PF_INET6 SOCK_STREAM IPPROTO_TCP (WSAStartup h s).2).2)) :
    p.1 ≠ INVALID_SOCKET ∧ p.1 ∈ p.2.sockets ∧ 0 < p.2.wsaRefs ∧
    socketOptionSupported h level optname s =
      (if (getsockopt h p.1 level optname 1 sizeof_jint p.2).1.1 ≠ 0 ∧
          WSAGetLastError (getsockopt h p.1 level optname 1 sizeof_jint p.2).2
            = WSAENOPROTOOPT then 0 else 1,
        (WSACleanup (closesocket p.1
          (getsockopt h p.1 level optname 1 sizeof_jint p.2).2).2).2) := by
  have e1 := WSAStartup_ok h s h0
  simp only [e1] at hsock
  rcases hsock with ⟨h6, hp⟩ | ⟨e6, h6, hfb, h4, hp⟩
  · have e2 := socket_ok h PF_INET6 SOCK_STREAM IPPROTO_TCP _ h6
    have hv := freshHandle_valid
      (record { s with wsaRefs := s.wsaRefs + 1 } (Call.WSAStartup 0))
    simp only [e2] at hp
    subst hp
    refine ⟨hv, by simp [record], by simp [record], ?_⟩
    simp only [socketOptionSupported, e1, e2, hv, ne_eq, not_true_eq_false, reduceIte]
  · have e2 := socket_fail h PF_INET6 SOCK_STREAM IPPROTO_TCP _ e6 h6
    simp only [e2] at h4 hp
    have e3 := socket_ok h PF_INET SOCK_STREAM IPPROTO_TCP _ h4
    have hv := freshHandle_valid
      (record { (record { s with wsaRefs := s.wsaRefs + 1 } (Call.WSAStartup 0)) with
        lastError := e6 } (Call.socket PF_INET6 SOCK_STREAM IPPROTO_TCP INVALID_SOCKET))
    simp only [e3] at hp
    subst hp
    have hl : WSAGetLastError (record
        { (record { s with wsaRefs := s.wsaRefs + 1 } (Call.WSAStartup 0)) with lastError := e6 }
        (Call.socket PF_INET6 SOCK_STREAM IPPROTO_TCP INVALID_SOCKET)) = e6 := rfl
    refine ⟨hv, by simp [record], by simp [record], ?_⟩
    simp only [socketOptionSupported, e1, e2, hl, hfb, e3, hv, ne_eq, not_true_eq_false,
      reduceIte]

/-- The run in which the host grants the IPv6 socket: five calls, the last three on
the granted handle. -/
theorem run_v6_granted (h : Host) (level optname : Int) (s : State)
    (h0 : h.startup s = 0)
    (h6 : h.newSocket (WSAStartup h s).2 PF_INET6 SOCK_STREAM IPPROTO_TCP
      = Outcome.success) :
    ∃ sock rv e, sock ≠ INVALID_SOCKET ∧
      socketOptionSupported h level optname s =
      (if rv ≠ 0 ∧ e = WSAENOPROTOOPT then 0 else 1,
        { s with
            lastError := e,
            calls := s.calls ++
              [⟨Call.WSAStartup 0, s.lastError⟩,
               ⟨Call.socket PF_INET6 SOCK_STREAM IPPROTO_TCP sock, s.lastError⟩,
               ⟨Call.getsockopt sock level optname sizeof_jint rv, e⟩,
               ⟨Call.closesocket sock 0, e⟩,
               ⟨Call.WSACleanup 0, e⟩] }) := by
  have e1 := WSAStartup_ok h s h0
  simp only [e1] at h6
  generalize hs1 : record { s with wsaRefs := s.wsaRefs + 1 } (Call.WSAStartup 0) = s1
    at e1 h6
  have e2 := socket_ok h PF_INET6 SOCK_STREAM IPPROTO_TCP s1 h6
  have hv := freshHandle_valid s1
  generalize hs2 : record { s1 with sockets := freshHandle s1 :: s1.sockets }
    (Call.socket PF_INET6 SOCK_STREAM IPPROTO_TCP (freshHandle s1)) = s2 at e2
  have hopen : freshHandle s1 ∈ s2.sockets := by subst hs2; simp [record]
  have hrefs : 0 < s2.wsaRefs := by subst hs2; subst hs1; simp [record]
  obtain ⟨rv, e, hrv, he, _, hfin⟩ :=
    probe_tail h (freshHandle s1) level optname s2 hopen hrefs
  refine ⟨freshHandle s1, rv, e, hv, ?_⟩
  simp only [socketOptionSupported, e1, e2, hv, ne_eq, not_true_eq_false, reduceIte,
    WSAGetLastError, hrv, he, hfin]
  subst hs2; subst hs1
  simp [record]

/-- The run in which the host has no IPv6 and grants the IPv4 socket: six calls, the
last three on the granted handle. -/
theorem run_v4_granted (h : Host) (level optname : Int) (s : State) (e6 : Int)
    (h0 : h.startup s = 0)
    (h6 : h.newSocket (WSAStartup h s).2 PF_INET6 SOCK_STREAM IPPROTO_TCP
      = Outcome.failure e6)
    (hfb : e6 = WSAEPFNOSUPPORT ∨ e6 = WSAEAFNOSUPPORT)
    (h4 : h.newSocket (socket h PF_INET6 SOCK_STREAM IPPROTO_TCP (WSAStartup h s).2).2
      PF_INET SOCK_STREAM IPPROTO_TCP = Outcome.success) :
    ∃ sock rv e, sock ≠ INVALID_SOCKET ∧
      socketOptionSupported h level optname s =
      (if rv ≠ 0 ∧ e = WSAENOPROTOOPT then 0 else 1,
        { s with
            lastError := e,
            calls := s.calls ++
              [⟨Call.WSAStartup 0, s.lastError⟩,
               ⟨Call.socket PF_INET6 SOCK_STREAM IPPROTO_TCP INVALID_SOCKET, e6⟩,
               ⟨Call.socket PF_INET SOCK_STREAM IPPROTO_TCP sock, e6⟩,
               ⟨Call.getsockopt sock level optname sizeof_jint rv, e⟩,
               ⟨Call.closesocket sock 0, e⟩,
               ⟨Call.WSACleanup 0, e⟩] }) := by
  have e1 := WSAStartup_ok h s h0
  simp only [e1] at h6 h4
  generalize hs1 : record { s with wsaRefs := s.wsaRefs + 1 } (Call.WSAStartup 0) = s1
    at e1 h6 h4
  have e2 := socket_fail h PF_INET6 SOCK_STREAM IPPROTO_TCP s1 e6 h6
  simp only [e2] at h4
  generalize hs2 : record { s1 with lastError := e6 }
    (Call.socket PF_INET6 SOCK_STREAM IPPROTO_TCP INVALID_SOCKET) = s2 at e2 h4
  have hl2 : s2.lastError = e6 := by subst hs2; simp [record]
  have e3 := socket_ok h PF_INET SOCK_STREAM IPPROTO_TCP s2 h4
  have hv := freshHandle_valid s2
  generalize hs3 : record { s2 with sockets := freshHandle s2 :: s2.sockets }
    (Call.socket PF_INET SOCK_STREAM IPPROTO_TCP (freshHandle s2)) = s3 at e3
  have hopen : freshHandle s2 ∈ s3.sockets := by subst hs3; simp [record]
  have hrefs : 0 < s3.wsaRefs := by subst hs3; subst hs2; subst hs1; simp [record]
  obtain ⟨rv, e, hrv, he, _, hfin⟩ :=
    probe_tail h (freshHandle s2) level optname s3 hopen hrefs
  refine ⟨freshHandle s2, rv, e, hv, ?_⟩
  simp only [socketOptionSupported, e1, e2, WSAGetLastError, hl2, hfb, e3, hv, ne_eq,
    not_true_eq_false, reduceIte, hrv, he, hfin]
  subst hs3; subst hs2; subst hs1
  simp [record]

/-- The reference count after `socketOptionSupported`: one higher than before when
`WSAStartup` succeeded and no socket request returned a socket (the return at line 70
skips `WSACleanup`), and unchanged in every other case. -/
theorem wsaRefs_after_probe (h : Host) (level optname : Int) (s : State) :
    ∃ new : List Entry,
      (socketOptionSupported h level optname s).2.calls = s.calls ++ new ∧
      (((∃ e, ⟨Call.WSAStartup 0, e⟩ ∈ new) ∧
          (∀ af ty pr r e, ⟨Call.socket af ty pr r, e⟩ ∈ new → r = INVALID_SOCKET)) →
        (socketOptionSupported h level optname s).2.wsaRefs = s.wsaRefs + 1) ∧
      (¬ ((∃ e, ⟨Call.WSAStartup 0, e⟩ ∈ new) ∧
          (∀ af ty pr r e, ⟨Call.socket af ty pr r, e⟩ ∈ new → r = INVALID_SOCKET)) →
        (socketOptionSupported h level optname s).2.wsaRefs = s.wsaRefs) := by
  rcases socketOptionSupported_paths h level optname s with
    ⟨r, hr, heq⟩ | ⟨e6, hne, heq⟩ | ⟨e6, e4, hfb, heq⟩ |
    ⟨sk, rv, err, hv, hno, hrv, heq⟩ | ⟨e6, sk, rv, err, hfb, hv, hno, hrv, heq⟩
  · refine ⟨_, by rw [heq], ?_, ?_⟩
    · rintro ⟨⟨e, he⟩, _⟩
      simp at he
      exact absurd he.1.symm hr
    · intro _
      rw [heq]
  · refine ⟨_, by rw [heq], ?_, ?_⟩
    · intro _
      rw [heq]
    · intro hn
      exact absurd ⟨⟨s.lastError, by simp⟩, by intro af ty pr r e hm; simp at hm; tauto⟩ hn
  · refine ⟨_, by rw [heq], ?_, ?_⟩
    · intro _
      rw [heq]
    · intro hn
      exact absurd ⟨⟨s.lastError, by simp⟩, by intro af ty pr r e hm; simp at hm; tauto⟩ hn
  · refine ⟨_, by rw [heq], ?_, ?_⟩
    · rintro ⟨_, hall⟩
      exact absurd (hall PF_INET6 SOCK_STREAM IPPROTO_TCP sk s.lastError (by simp)) hv
    · intro _
      rw [heq]
  · refine ⟨_, by rw [heq], ?_, ?_⟩
    · rintro ⟨_, hall⟩
      exact absurd (hall PF_INET SOCK_STREAM IPPROTO_TCP sk e6 (by simp)) hv
    · intro _
      rw [heq]

/-- The classification of `handleError` after a `setsockopt` made in a state `s1` with
the log and the pending exception of `s`. -/
theorem classified_set (h : Host) (fd level optname optval : Int) (s s1 : State)
    (hc : s1.calls = s.calls) (hp : s1.pending = s.pending) (msg name : String)
    (hmsg : msg ≠ "") (hin : name.toList <:+: msg.toList) :
    Classified s
      (handleError (setsockopt h fd level optname optval sizeof_jint s1).2
        (setsockopt h fd level optname optval sizeof_jint s1).1 msg)
      (h.setOpt s1 fd level optname optval)
      (Call.setsockopt fd level optname optval sizeof_jint) name := by
  unfold Classified
  cases hset : h.setOpt s1 fd level optname optval with
  | success =>
    refine ⟨0, s1.lastError, ?_, Or.inl rfl, ?_, ?_, ?_, ?_, ?_⟩ <;>
      simp [setsockopt, hset, handleError, record, hc, hp]
  | failure e =>
    refine ⟨SOCKET_ERROR, e, ?_, Or.inr rfl, ?_, ?_, ?_, ?_, ?_⟩
    · by_cases he : e = WSAENOPROTOOPT <;>
        simp [setsockopt, hset, handleError, record, hc, SOCKET_ERROR, WSAGetLastError,
          JNU_ThrowByName, JNU_ThrowByNameWithLastError, he]
    · simp
    · intro e1 he1
      exact ⟨rfl, (Outcome.failure.inj he1)⟩
    · simp [SOCKET_ERROR]
    · intro _ he
      simp [setsockopt, hset, handleError, record, SOCKET_ERROR, WSAGetLastError,
        JNU_ThrowByName, he]
    · intro _ he
      refine ⟨msg, ?_, hmsg, hin⟩
      simp [setsockopt, hset, handleError, record, SOCKET_ERROR, WSAGetLastError,
        JNU_ThrowByNameWithLastError, he]

/-- The classification of `handleError` after a `getsockopt` made in a state `s1` with
the log and the pending exception of `s`. -/
theorem classified_get (h : Host) (fd level optname optval0 : Int) (s s1 : State)
    (hc : s1.calls = s.calls) (hp : s1.pending = s.pending) (msg name : String)
    (hmsg : msg ≠ "") (hin : name.toList <:+: msg.toList) :
    Classified s
      (handleError (getsockopt h fd level optname optval0 sizeof_jint s1).2
        (getsockopt h fd level optname optval0 sizeof_jint s1).1.1 msg)
      (h.getOpt s1 fd level optname)
      (Call.getsockopt fd level optname sizeof_jint) name := by
  unfold Classified
  cases hget : h.getOpt s1 fd level optname with
  | success =>
    refine ⟨0, s1.lastError, ?_, Or.inl rfl, ?_, ?_, ?_, ?_, ?_⟩ <;>
      simp [getsockopt, hget, handleError, record, hc, hp]
  | failure e =>
    refine ⟨SOCKET_ERROR, e, ?_, Or.inr rfl, ?_, ?_, ?_, ?_, ?_⟩
    · by_cases he : e = WSAENOPROTOOPT <;>
        simp [getsockopt, hget, handleError, record, hc, SOCKET_ERROR, WSAGetLastError,
          JNU_ThrowByName, JNU_ThrowByNameWithLastError, he]
    · simp
    · intro e1 he1
      exact ⟨rfl, (Outcome.failure.inj he1)⟩
    · simp [SOCKET_ERROR]
    · intro _ he
      simp [getsockopt, hget, handleError, record, SOCKET_ERROR, WSAGetLastError,
        JNU_ThrowByName, he]
    · intro _ he
      refine ⟨msg, ?_, hmsg, hin⟩
      simp [getsockopt, hget, handleError, record, SOCKET_ERROR, WSAGetLastError,
        JNU_ThrowByNameWithLastError, he]

/-- Writing a `jint` as four bytes and reading four bytes back gives the same `jint`. -/
theorem jint_roundtrip (V : Int) (hV : -2 ^ 31 ≤ V ∧ V < 2 ^ 31) :
    jintOfBits (bitsOfJint V sizeof_jint % 2 ^ (8 * sizeof_jint)) = V := by
  unfold jintOfBits bitsOfJint sizeof_jint
  norm_num at hV ⊢
  split_ifs <;> omega

/-- The round trip for any option name and any pair of messages: a setter body that
raises nothing, followed by the getter body on the same descriptor object whose
`getsockopt` call the host lets succeed. -/
theorem roundtrip_core (h : Host) (fileDesc optname V optval0 : Int) (s t : State)
    (msgS msgG : String)
    (hV : -2 ^ 31 ≤ V ∧ V < 2 ^ 31)
    (ht : t = handleError
        (setsockopt h (getFD h fileDesc s).1 IPPROTO_TCP optname V sizeof_jint
          (getFD h fileDesc s).2).2
        (setsockopt h (getFD h fileDesc s).1 IPPROTO_TCP optname V sizeof_jint
          (getFD h fileDesc s).2).1 msgS)
    (hset : t.pending = none)
    (hget : h.getOpt (getFD h fileDesc t).2 (getFD h fileDesc t).1 IPPROTO_TCP optname
      = Outcome.success) :
    (getsockopt h (getFD h fileDesc t).1 IPPROTO_TCP optname optval0 sizeof_jint
      (getFD h fileDesc t).2).1.2 = V ∧
    (handleError
      (getsockopt h (getFD h fileDesc t).1 IPPROTO_TCP optname optval0 sizeof_jint
        (getFD h fileDesc t).2).2
      (getsockopt h (getFD h fileDesc t).1 IPPROTO_TCP optname optval0 sizeof_jint
        (getFD h fileDesc t).2).1.1 msgG).pending = none ∧
    (handleError
      (getsockopt h (getFD h fileDesc t).1 IPPROTO_TCP optname optval0 sizeof_jint
        (getFD h fileDesc t).2).2
      (getsockopt h (getFD h fileDesc t).1 IPPROTO_TCP optname optval0 sizeof_jint
        (getFD h fileDesc t).2).1.1 msgG).calls = s.calls ++
      [⟨Call.setsockopt (h.intField fileDesc s.sf_fd_fdID) IPPROTO_TCP optname V
          sizeof_jint 0, s.lastError⟩,
       ⟨Call.getsockopt (h.intField fileDesc s.sf_fd_fdID) IPPROTO_TCP optname
          sizeof_jint 0, s.lastError⟩] := by
  subst ht
  simp only [getFD, GetIntField] at hset hget ⊢
  cases hso : h.setOpt { s with jni := s.jni ++ [JNICall.GetIntField fileDesc s.sf_fd_fdID] }
      (h.intField fileDesc s.sf_fd_fdID) IPPROTO_TCP optname V with
  | failure e =>
    exfalso
    by_cases he : e = WSAENOPROTOOPT <;>
      simp [setsockopt, hso, handleError, record, SOCKET_ERROR, WSAGetLastError,
        JNU_ThrowByName, JNU_ThrowByNameWithLastError, he] at hset
  | success =>
    simp only [setsockopt, hso, handleError, record, lt_self_iff_false, reduceIte]
      at hset hget ⊢
    simp only [getsockopt, hget, handleError, record, lt_self_iff_false, reduceIte]
    refine ⟨?_, hset, by simp⟩
    simp only [optionBits, List.lookup, beq_self_eq_true]
    exact jint_roundtrip V hV

/-- C1: let the host make `WSAStartup` succeed and grant a probe socket `p.1`, in
state `p.2`, to the IPv6 request or to the IPv4 request that follows an IPv6 failure
with `WSAEPFNOSUPPORT` or `WSAEAFNOSUPPORT`.  Then `socketOptionSupported` returns 0
exactly when the probe `getsockopt` on that socket returns non-zero with last error
`WSAENOPROTOOPT`, and 1 in every other case: 1 when the host lets `getsockopt`
succeed, 0 when it fails it with `WSAENOPROTOOPT`, 1 when it fails it with any other
error.  The probe is the `getsockopt` for the given level and option on `p.1`. -/
theorem C1_probe_verdict (h : Host) (level optname : Int) (s : State) (p : Int × State)
    (hstart : h.startup s = 0)
    (hsock :
      (h.newSocket (WSAStartup h s).2 PF_INET6 SOCK_STREAM IPPROTO_TCP = Outcome.success ∧
        p = socket h PF_INET6 SOCK_STREAM IPPROTO_TCP (WSAStartup h s).2) ∨
      (∃ e6, h.newSocket (WSAStartup h s).2 PF_INET6 SOCK_STREAM IPPROTO_TCP
          = Outcome.failure e6 ∧
        (e6 = WSAEPFNOSUPPORT ∨ e6 = WSAEAFNOSUPPORT) ∧
        h.newSocket (socket h PF_INET6 SOCK_STREAM IPPROTO_TCP (WSAStartup h s).2).2
          PF_INET SOCK_STREAM IPPROTO_TCP = Outcome.success ∧
        p = socket h PF_INET SOCK_STREAM IPPROTO_TCP
          (socket h PF_INET6 SOCK_STREAM IPPROTO_TCP (WSAStartup h s).2).2)) :
    ((socketOptionSupported h level optname s).1 = 0 ↔
      ((getsockopt h p.1 level optname 1 sizeof_jint p.2).1.1 ≠ 0 ∧ WSAGetLastError (getsockopt h p.1 level optname 1 sizeof_jint p.2).2 = WSAENOPROTOOPT)) ∧
    (¬ ((getsockopt h p.1 level optname 1 sizeof_jint p.2).1.1 ≠ 0 ∧ WSAGetLastError (getsockopt h p.1 level optname 1 sizeof_jint p.2).2 = WSAENOPROTOOPT) → (socketOptionSupported h level optname s).1 = 1) ∧
    (h.getOpt p.2 p.1 level optname = Outcome.success → (socketOptionSupported h level optname s).1 = 1) ∧
    (h.getOpt p.2 p.1 level optname = Outcome.failure WSAENOPROTOOPT → (socketOptionSupported h level optname s).1 = 0) ∧
    (∀ e, e ≠ WSAENOPROTOOPT → h.getOpt p.2 p.1 level optname = Outcome.failure e →
      (socketOptionSupported h level optname s).1 = 1) ∧
    (∃ err, (socketOptionSupported h level optname s).2.calls = p.2.calls ++
      [⟨Call.getsockopt p.1 level optname sizeof_jint (getsockopt h p.1 level optname 1 sizeof_jint p.2).1.1, err⟩,
       ⟨Call.closesocket p.1 0, err⟩, ⟨Call.WSACleanup 0, err⟩]) := by
  obtain ⟨_, hopen, hrefs, heq⟩ := run_with_socket h level optname s p hstart hsock
  obtain ⟨hok, hfail⟩ := probe_tail_host h p.1 level optname p.2 hopen hrefs
  have hif : ∀ c : Prop, [Decidable c] → ((if c then (0 : Int) else 1) = 0 ↔ c) := by
    intro c _
    by_cases hc : c <;> simp [hc]
  refine ⟨?_, ?_, ?_, ?_, ?_, ?_⟩
  · rw [heq]
    exact hif _
  · intro hn
    rw [heq]
    simp only [hn, if_false]
  · intro hg
    rw [heq]
    simp [(hok hg).1]
  · intro hg
    rw [heq]
    simp [(hfail _ hg).1, (hfail _ hg).2.1, WSAGetLastError, SOCKET_ERROR]
  · intro e he hg
    rw [heq]
    simp [(hfail _ hg).2.1, WSAGetLastError, he]
  · rw [heq]
    cases hg : h.getOpt p.2 p.1 level optname with
    | success =>
      refine ⟨p.2.lastError, ?_⟩
      simp only [(hok hg).2.2, (hok hg).1]
    | failure e =>
      refine ⟨e, ?_⟩
      simp only [(hfail e hg).2.2, (hfail e hg).1]

/-- C1 at three concrete runs from `idle`: the host lets `getsockopt` succeed (result
1), fails it with `WSAENOPROTOOPT` on the IPv4 fallback socket (result 0), and fails
it with `WSAENOBUFS` (result 1). -/
theorem C1_probe_verdict_witness :
    (socketOptionSupported obligingHost IPPROTO_TCP TCP_KEEPIDLE idle).1 = 1 ∧
    (socketOptionSupported v4Host IPPROTO_TCP TCP_KEEPIDLE idle).1 = 0 ∧
    (socketOptionSupported starvedHost IPPROTO_TCP TCP_KEEPIDLE idle).1 = 1 :=
  ⟨(C1_probe_verdict obligingHost IPPROTO_TCP TCP_KEEPIDLE idle
      (socket obligingHost PF_INET6 SOCK_STREAM IPPROTO_TCP (WSAStartup obligingHost idle).2)
      rfl (Or.inl ⟨rfl, rfl⟩)).2.2.1 rfl,
   (C1_probe_verdict v4Host IPPROTO_TCP TCP_KEEPIDLE idle
      (socket v4Host PF_INET SOCK_STREAM IPPROTO_TCP
        (socket v4Host PF_INET6 SOCK_STREAM IPPROTO_TCP (WSAStartup v4Host idle).2).2)
      rfl (Or.inr ⟨WSAEAFNOSUPPORT, rfl, Or.inr rfl, rfl, rfl⟩)).2.2.2.1 rfl,
   (C1_probe_verdict starvedHost IPPROTO_TCP TCP_KEEPIDLE idle
      (socket starvedHost PF_INET6 SOCK_STREAM IPPROTO_TCP (WSAStartup starvedHost idle).2)
      rfl (Or.inl ⟨rfl, rfl⟩)).2.2.2.2.1 WSAENOBUFS (by decide) rfl⟩

/-- C2: each of the six keep-alive accessors makes exactly one Winsock call, the
`setsockopt` or `getsockopt` for its own option on the handle read from the
descriptor, with the return value and last error the host gives that call, and
classifies the outcome: nothing is raised when the call succeeds, an
`UnsupportedOperationException` when it fails with `WSAENOPROTOOPT`, and otherwise a
`SocketException` with a non-empty message that contains the name of the option. -/
theorem C2_error_classification (h : Host) (fileDesc optval optval0 : Int) (s : State) :
    Classified s (Java_sun_net_ExtendedOptionsImpl_setTcpKeepAliveProbes h fileDesc optval s)
      (h.setOpt (getFD h fileDesc s).2 (h.intField fileDesc s.sf_fd_fdID) IPPROTO_TCP TCP_KEEPCNT optval)
      (Call.setsockopt (h.intField fileDesc s.sf_fd_fdID) IPPROTO_TCP TCP_KEEPCNT optval
        sizeof_jint) "TCP_KEEPCNT" ∧
    Classified s (Java_sun_net_ExtendedOptionsImpl_setTcpKeepAliveTime h fileDesc optval s)
      (h.setOpt (getFD h fileDesc s).2 (h.intField fileDesc s.sf_fd_fdID) IPPROTO_TCP TCP_KEEPIDLE optval)
      (Call.setsockopt (h.intField fileDesc s.sf_fd_fdID) IPPROTO_TCP TCP_KEEPIDLE optval
        sizeof_jint) "TCP_KEEPIDLE" ∧
    Classified s (Java_sun_net_ExtendedOptionsImpl_setTcpKeepAliveIntvl h fileDesc optval s)
      (h.setOpt (getFD h fileDesc s).2 (h.intField fileDesc s.sf_fd_fdID) IPPROTO_TCP TCP_KEEPINTVL optval)
      (Call.setsockopt (h.intField fileDesc s.sf_fd_fdID) IPPROTO_TCP TCP_KEEPINTVL optval
        sizeof_jint) "TCP_KEEPINTVL" ∧
    Classified s (Java_sun_net_ExtendedOptionsImpl_getTcpKeepAliveProbes h fileDesc optval0 s).2
      (h.getOpt (getFD h fileDesc s).2 (h.intField fileDesc s.sf_fd_fdID) IPPROTO_TCP TCP_KEEPCNT)
      (Call.getsockopt (h.intField fileDesc s.sf_fd_fdID) IPPROTO_TCP TCP_KEEPCNT
        sizeof_jint) "TCP_KEEPCNT" ∧
    Classified s (Java_sun_net_ExtendedOptionsImpl_getTcpKeepAliveTime h fileDesc optval0 s).2
      (h.getOpt (getFD h fileDesc s).2 (h.intField fileDesc s.sf_fd_fdID) IPPROTO_TCP TCP_KEEPIDLE)
      (Call.getsockopt (h.intField fileDesc s.sf_fd_fdID) IPPROTO_TCP TCP_KEEPIDLE
        sizeof_jint) "TCP_KEEPIDLE" ∧
    Classified s (Java_sun_net_ExtendedOptionsImpl_getTcpKeepAliveIntvl h fileDesc optval0 s).2
      (h.getOpt (getFD h fileDesc s).2 (h.intField fileDesc s.sf_fd_fdID) IPPROTO_TCP TCP_KEEPINTVL)
      (Call.getsockopt (h.intField fileDesc s.sf_fd_fdID) IPPROTO_TCP TCP_KEEPINTVL
        sizeof_jint) "TCP_KEEPINTVL" := by
  refine ⟨?_, ?_, ?_, ?_, ?_, ?_⟩
  · exact classified_set h _ IPPROTO_TCP TCP_KEEPCNT optval s (getFD h fileDesc s).2 rfl rfl
      "set option TCP_KEEPCNT failed" "TCP_KEEPCNT" (by decide)
      ⟨"set option ".toList, " failed".toList, by decide⟩
  · exact classified_set h _ IPPROTO_TCP TCP_KEEPIDLE optval s (getFD h fileDesc s).2 rfl rfl
      "set option TCP_KEEPIDLE failed" "TCP_KEEPIDLE" (by decide)
      ⟨"set option ".toList, " failed".toList, by decide⟩
  · exact classified_set h _ IPPROTO_TCP TCP_KEEPINTVL optval s (getFD h fileDesc s).2 rfl rfl
      "set option TCP_KEEPINTVL failed" "TCP_KEEPINTVL" (by decide)
      ⟨"set option ".toList, " failed".toList, by decide⟩
  · exact classified_get h _ IPPROTO_TCP TCP_KEEPCNT optval0 s (getFD h fileDesc s).2 rfl rfl
      "get option TCP_KEEPCNT failed" "TCP_KEEPCNT" (by decide)
      ⟨"get option ".toList, " failed".toList, by decide⟩
  · exact classified_get h _ IPPROTO_TCP TCP_KEEPIDLE optval0 s (getFD h fileDesc s).2 rfl rfl
      "get option TCP_KEEPIDLE failed" "TCP_KEEPIDLE" (by decide)
      ⟨"get option ".toList, " failed".toList, by decide⟩
  · exact classified_get h _ IPPROTO_TCP TCP_KEEPINTVL optval0 s (getFD h fileDesc s).2 rfl rfl
      "get option TCP_KEEPINTVL failed" "TCP_KEEPINTVL" (by decide)
      ⟨"get option ".toList, " failed".toList, by decide⟩

/-- C3: `keepAliveOptionsSupported` returns `JNI_TRUE` exactly when the probes for
`TCP_KEEPIDLE`, `TCP_KEEPCNT` and `TCP_KEEPINTVL`, run one after the other, all report
supported, and `JNI_FALSE` exactly when one of them reports unsupported; it stops at
the first probe that reports unsupported. -/
theorem C3_keepalive_conjunction (h : Host) (s : State) :
    ((Java_sun_net_ExtendedOptionsImpl_keepAliveOptionsSupported h s).1 = JNI_TRUE ↔
      (socketOptionSupported h IPPROTO_TCP TCP_KEEPIDLE s).1 ≠ 0 ∧
      (socketOptionSupported h IPPROTO_TCP TCP_KEEPCNT
        (socketOptionSupported h IPPROTO_TCP TCP_KEEPIDLE s).2).1 ≠ 0 ∧
      (socketOptionSupported h IPPROTO_TCP TCP_KEEPINTVL
        (socketOptionSupported h IPPROTO_TCP TCP_KEEPCNT
          (socketOptionSupported h IPPROTO_TCP TCP_KEEPIDLE s).2).2).1 ≠ 0) ∧
    ((Java_sun_net_ExtendedOptionsImpl_keepAliveOptionsSupported h s).1 = JNI_FALSE ↔
      (socketOptionSupported h IPPROTO_TCP TCP_KEEPIDLE s).1 = 0 ∨
      (socketOptionSupported h IPPROTO_TCP TCP_KEEPCNT
        (socketOptionSupported h IPPROTO_TCP TCP_KEEPIDLE s).2).1 = 0 ∨
      (socketOptionSupported h IPPROTO_TCP TCP_KEEPINTVL
        (socketOptionSupported h IPPROTO_TCP TCP_KEEPCNT
          (socketOptionSupported h IPPROTO_TCP TCP_KEEPIDLE s).2).2).1 = 0) ∧
    ((socketOptionSupported h IPPROTO_TCP TCP_KEEPIDLE s).1 = 0 →
      (Java_sun_net_ExtendedOptionsImpl_keepAliveOptionsSupported h s).2 =
        (socketOptionSupported h IPPROTO_TCP TCP_KEEPIDLE s).2) ∧
    ((socketOptionSupported h IPPROTO_TCP TCP_KEEPIDLE s).1 ≠ 0 →
      (socketOptionSupported h IPPROTO_TCP TCP_KEEPCNT
        (socketOptionSupported h IPPROTO_TCP TCP_KEEPIDLE s).2).1 = 0 →
      (Java_sun_net_ExtendedOptionsImpl_keepAliveOptionsSupported h s).2 =
        (socketOptionSupported h IPPROTO_TCP TCP_KEEPCNT
          (socketOptionSupported h IPPROTO_TCP TCP_KEEPIDLE s).2).2) := by
  unfold Java_sun_net_ExtendedOptionsImpl_keepAliveOptionsSupported
  simp only
  split_ifs <;> simp_all [JNI_TRUE, JNI_FALSE]

/-- C4 at the failing input: `WSAStartup` succeeds and the IPv6 socket request fails
with `WSAEMFILE`.  The function returns 0 after two calls, none of them `WSACleanup`,
and the reference count is one higher than before. -/
theorem C4_missing_cleanup :
    socketOptionSupported exhaustedHost IPPROTO_TCP TCP_KEEPIDLE idle =
      (0, { idle with
              wsaRefs := 1,
              lastError := WSAEMFILE,
              calls := [⟨Call.WSAStartup 0, 0⟩,
                ⟨Call.socket PF_INET6 SOCK_STREAM IPPROTO_TCP INVALID_SOCKET, WSAEMFILE⟩] }) ∧
    (socketOptionSupported exhaustedHost IPPROTO_TCP TCP_KEEPIDLE idle).2.wsaRefs
      = idle.wsaRefs + 1 := by
  decide

/-- C5: `socketOptionSupported` leaves the list of open handles as it found it and
returns the verdict 0 or 1; every socket it obtained was not open before, is not open
afterwards, and the log of the run holds exactly one `closesocket` call on it, which
succeeded. -/
theorem C5_probe_socket_closed (h : Host) (level optname : Int) (s : State) :
    (socketOptionSupported h level optname s).2.sockets = s.sockets ∧
    ((socketOptionSupported h level optname s).1 = 0 ∨
      (socketOptionSupported h level optname s).1 = 1) ∧
    ∃ new : List Entry,
      (socketOptionSupported h level optname s).2.calls = s.calls ++ new ∧
      ∀ af ty pr sock e, ⟨Call.socket af ty pr sock, e⟩ ∈ new → sock ≠ INVALID_SOCKET →
        sock ∉ s.sockets ∧
        sock ∉ (socketOptionSupported h level optname s).2.sockets ∧
        ∃ e1, new.filter (isCloseOf sock) = [⟨Call.closesocket sock 0, e1⟩] := by
  rcases socketOptionSupported_paths h level optname s with
    ⟨r, hr, heq⟩ | ⟨e6, hne, heq⟩ | ⟨e6, e4, hfb, heq⟩ |
    ⟨sk, rv, err, hv, hno, hrv, heq⟩ | ⟨e6, sk, rv, err, hfb, hv, hno, hrv, heq⟩
  · refine ⟨by rw [heq], Or.inl (by rw [heq]), _, by rw [heq], ?_⟩
    intro af ty pr sock e hm hvalid
    simp at hm
  · refine ⟨by rw [heq], Or.inl (by rw [heq]), _, by rw [heq], ?_⟩
    intro af ty pr sock e hm hvalid
    simp at hm
    exact absurd hm.1.2.2.2 hvalid
  · refine ⟨by rw [heq], Or.inl (by rw [heq]), _, by rw [heq], ?_⟩
    intro af ty pr sock e hm hvalid
    simp at hm
    rcases hm with hm | hm <;> exact absurd hm.1.2.2.2 hvalid
  · refine ⟨by rw [heq], ?_, _, by rw [heq], ?_⟩
    · rw [heq]; simp only; split_ifs <;> simp
    intro af ty pr sock e hm hvalid
    simp at hm
    obtain ⟨⟨_, _, _, rfl⟩, _⟩ := hm
    refine ⟨hno, by rw [heq]; exact hno, err, ?_⟩
    simp [List.filter, isCloseOf]
  · refine ⟨by rw [heq], ?_, _, by rw [heq], ?_⟩
    · rw [heq]; simp only; split_ifs <;> simp
    intro af ty pr sock e hm hvalid
    simp at hm
    rcases hm with hm | hm
    · exact absurd hm.1.2.2.2 hvalid
    obtain ⟨⟨_, _, _, rfl⟩, _⟩ := hm
    refine ⟨hno, by rw [heq]; exact hno, err, ?_⟩
    simp [List.filter, isCloseOf]

/-- C6: when the host makes `WSAStartup` fail, `socketOptionSupported` calls nothing
else and returns 0.  When the host lets it succeed, the next call requests an IPv6
stream socket; an IPv4 stream socket is requested after it exactly when the host
failed the IPv6 request with `WSAEPFNOSUPPORT` or `WSAEAFNOSUPPORT`, and no other
socket is requested.  When the host fails the IPv6 request with another error, or
fails both requests, the function returns 0 and the log ends with the failed request:
no `getsockopt` is issued.  No exception becomes pending in any of these cases. -/
theorem C6_socket_fallback (h : Host) (level optname : Int) (s : State) :
    (h.startup s ≠ 0 →
      (socketOptionSupported h level optname s).1 = 0 ∧
      (socketOptionSupported h level optname s).2.calls = s.calls ++ [⟨Call.WSAStartup (h.startup s), s.lastError⟩] ∧
      (socketOptionSupported h level optname s).2.pending = s.pending) ∧
    (h.startup s = 0 →
      (socketOptionSupported h level optname s).2.pending = s.pending ∧
      ∃ r e rest,
        (socketOptionSupported h level optname s).2.calls = s.calls ++ ⟨Call.WSAStartup 0, s.lastError⟩ ::
          ⟨Call.socket PF_INET6 SOCK_STREAM IPPROTO_TCP r, e⟩ :: rest ∧
        ((∃ r4 e4, ⟨Call.socket PF_INET SOCK_STREAM IPPROTO_TCP r4, e4⟩ ∈ rest) ↔
          (∃ e6, h.newSocket (WSAStartup h s).2 PF_INET6 SOCK_STREAM IPPROTO_TCP = Outcome.failure e6 ∧
            (e6 = WSAEPFNOSUPPORT ∨ e6 = WSAEAFNOSUPPORT))) ∧
        (∀ af ty pr r4 e4, ⟨Call.socket af ty pr r4, e4⟩ ∈ rest →
          af = PF_INET ∧ ty = SOCK_STREAM ∧ pr = IPPROTO_TCP)) ∧
    (h.startup s = 0 →
      ∀ e6, h.newSocket (WSAStartup h s).2 PF_INET6 SOCK_STREAM IPPROTO_TCP = Outcome.failure e6 →
        ¬ (e6 = WSAEPFNOSUPPORT ∨ e6 = WSAEAFNOSUPPORT) →
        (socketOptionSupported h level optname s).1 = 0 ∧
        (socketOptionSupported h level optname s).2.calls = s.calls ++
          [⟨Call.WSAStartup 0, s.lastError⟩,
           ⟨Call.socket PF_INET6 SOCK_STREAM IPPROTO_TCP INVALID_SOCKET, e6⟩]) ∧
    (h.startup s = 0 →
      ∀ e6 e4, h.newSocket (WSAStartup h s).2 PF_INET6 SOCK_STREAM IPPROTO_TCP = Outcome.failure e6 →
        (e6 = WSAEPFNOSUPPORT ∨ e6 = WSAEAFNOSUPPORT) →
        h.newSocket (socket h PF_INET6 SOCK_STREAM IPPROTO_TCP (WSAStartup h s).2).2
          PF_INET SOCK_STREAM IPPROTO_TCP = Outcome.failure e4 →
        (socketOptionSupported h level optname s).1 = 0 ∧
        (socketOptionSupported h level optname s).2.calls = s.calls ++
          [⟨Call.WSAStartup 0, s.lastError⟩,
           ⟨Call.socket PF_INET6 SOCK_STREAM IPPROTO_TCP INVALID_SOCKET, e6⟩,
           ⟨Call.socket PF_INET SOCK_STREAM IPPROTO_TCP INVALID_SOCKET, e4⟩]) := by
  refine ⟨?_, ?_, ?_, ?_⟩
  · intro h0
    rw [run_startup_failed h level optname s h0]
    exact ⟨rfl, rfl, rfl⟩
  · intro h0
    cases h6 : h.newSocket (WSAStartup h s).2 PF_INET6 SOCK_STREAM IPPROTO_TCP with
    | success =>
      obtain ⟨sock, rv, e, _, heq⟩ := run_v6_granted h level optname s h0 h6
      rw [heq]
      refine ⟨rfl, _, _, _, rfl, ?_, ?_⟩
      · simp
      · simp
    | failure e6 =>
      by_cases hfb : e6 = WSAEPFNOSUPPORT ∨ e6 = WSAEAFNOSUPPORT
      · cases h4 : h.newSocket (socket h PF_INET6 SOCK_STREAM IPPROTO_TCP (WSAStartup h s).2).2
            PF_INET SOCK_STREAM IPPROTO_TCP with
        | success =>
          obtain ⟨sock, rv, e, _, heq⟩ := run_v4_granted h level optname s e6 h0 h6 hfb h4
          rw [heq]
          refine ⟨rfl, _, _, _, rfl, ?_, ?_⟩
          · simp [hfb]
          · simp
            intro af ty pr r e ha hb hc _ _
            exact ⟨ha, hb, hc⟩
        | failure e4 =>
          rw [run_both_refused h level optname s e6 e4 h0 h6 hfb h4]
          refine ⟨rfl, _, _, _, rfl, ?_, ?_⟩
          · simp [hfb]
          · simp
            intro af ty pr r e ha hb hc _ _
            exact ⟨ha, hb, hc⟩
      · rw [run_v6_refused h level optname s e6 h0 h6 hfb]
        refine ⟨rfl, _, _, [], rfl, ?_, ?_⟩
        · simp [hfb]
        · simp
  · intro h0 e6 h6 hne
    rw [run_v6_refused h level optname s e6 h0 h6 hne]
    exact ⟨rfl, rfl⟩
  · intro h0 e6 e4 h6 hfb h4
    rw [run_both_refused h level optname s e6 e4 h0 h6 hfb h4]
    exact ⟨rfl, rfl⟩

/-- C6 at four concrete runs from `idle`: `WSAStartup` fails with 10091; descriptors
are exhausted, so IPv6 fails with `WSAEMFILE` and IPv4 is not tried; IPv6 is missing
and IPv4 fails too; IPv6 is missing and IPv4 is granted, so the log holds both
requests. -/
theorem C6_socket_fallback_witness :
    ((socketOptionSupported downHost IPPROTO_TCP TCP_KEEPIDLE idle).1 = 0 ∧
      (socketOptionSupported downHost IPPROTO_TCP TCP_KEEPIDLE idle).2.calls =
        [⟨Call.WSAStartup 10091, 0⟩] ∧
      (socketOptionSupported downHost IPPROTO_TCP TCP_KEEPIDLE idle).2.pending = none) ∧
    ((socketOptionSupported exhaustedHost IPPROTO_TCP TCP_KEEPIDLE idle).1 = 0 ∧
      (socketOptionSupported exhaustedHost IPPROTO_TCP TCP_KEEPIDLE idle).2.calls =
        [⟨Call.WSAStartup 0, 0⟩,
         ⟨Call.socket PF_INET6 SOCK_STREAM IPPROTO_TCP INVALID_SOCKET, WSAEMFILE⟩]) ∧
    ((socketOptionSupported noFamilyHost IPPROTO_TCP TCP_KEEPIDLE idle).1 = 0 ∧
      (socketOptionSupported noFamilyHost IPPROTO_TCP TCP_KEEPIDLE idle).2.calls =
        [⟨Call.WSAStartup 0, 0⟩,
         ⟨Call.socket PF_INET6 SOCK_STREAM IPPROTO_TCP INVALID_SOCKET, WSAEPFNOSUPPORT⟩,
         ⟨Call.socket PF_INET SOCK_STREAM IPPROTO_TCP INVALID_SOCKET, WSAEMFILE⟩]) ∧
    ((socketOptionSupported v4Host IPPROTO_TCP TCP_KEEPIDLE idle).2.pending = none ∧
      ∃ r e rest,
        (socketOptionSupported v4Host IPPROTO_TCP TCP_KEEPIDLE idle).2.calls =
          idle.calls ++ ⟨Call.WSAStartup 0, idle.lastError⟩ ::
            ⟨Call.socket PF_INET6 SOCK_STREAM IPPROTO_TCP r, e⟩ :: rest ∧
        ((∃ r4 e4, ⟨Call.socket PF_INET SOCK_STREAM IPPROTO_TCP r4, e4⟩ ∈ rest) ↔
          (∃ e6, v4Host.newSocket (WSAStartup v4Host idle).2 PF_INET6 SOCK_STREAM IPPROTO_TCP
              = Outcome.failure e6 ∧
            (e6 = WSAEPFNOSUPPORT ∨ e6 = WSAEAFNOSUPPORT))) ∧
        (∀ af ty pr r4 e4, ⟨Call.socket af ty pr r4, e4⟩ ∈ rest →
          af = PF_INET ∧ ty = SOCK_STREAM ∧ pr = IPPROTO_TCP)) :=
  ⟨(C6_socket_fallback downHost IPPROTO_TCP TCP_KEEPIDLE idle).1 (by decide),
   (C6_socket_fallback exhaustedHost IPPROTO_TCP TCP_KEEPIDLE idle).2.2.1 rfl
      WSAEMFILE rfl (by decide),
   (C6_socket_fallback noFamilyHost IPPROTO_TCP TCP_KEEPIDLE idle).2.2.2 rfl
      WSAEPFNOSUPPORT WSAEMFILE rfl (Or.inl rfl) rfl,
   (C6_socket_fallback v4Host IPPROTO_TCP TCP_KEEPIDLE idle).2.1 rfl⟩

/-- C7: `setFlowOption` and `getFlowOption` make an `UnsupportedOperationException`
with message "unsupported socket option" pending and change nothing else: the Winsock
log and the log of JNI field reads are as before. -/
theorem C7_flow_option_unsupported (fileDesc flow : Int) (s : State) :
    (Java_sun_net_ExtendedOptionsImpl_setFlowOption fileDesc flow s =
      { s with pending := some (Throwable.mk
          "java/lang/UnsupportedOperationException" "unsupported socket option" none) }) ∧
    (Java_sun_net_ExtendedOptionsImpl_getFlowOption fileDesc flow s =
      { s with pending := some (Throwable.mk
          "java/lang/UnsupportedOperationException" "unsupported socket option" none) }) ∧
    (Java_sun_net_ExtendedOptionsImpl_setFlowOption fileDesc flow s).calls = s.calls ∧
    (Java_sun_net_ExtendedOptionsImpl_getFlowOption fileDesc flow s).calls = s.calls ∧
    (Java_sun_net_ExtendedOptionsImpl_setFlowOption fileDesc flow s).jni = s.jni ∧
    (Java_sun_net_ExtendedOptionsImpl_getFlowOption fileDesc flow s).jni = s.jni :=
  ⟨rfl, rfl, rfl, rfl, rfl, rfl⟩

/-- C8: `flowSupported` returns `JNI_FALSE` and leaves the state, the Winsock log
included, exactly as it was; so does the helper `flowSupported0`. -/
theorem C8_flow_never_supported (s : State) :
    Java_sun_net_ExtendedOptionsImpl_flowSupported s = (JNI_FALSE, s) ∧
    flowSupported0 = JNI_FALSE :=
  ⟨rfl, rfl⟩

/-- C9, amended: for a descriptor object and a 32-bit value `V`, when
`setTcpKeepAliveTime` raises nothing and the host lets the `getsockopt` call of the
`getTcpKeepAliveTime` that follows succeed, that getter returns `V` and raises
nothing, and the two calls made were a `setsockopt` and a `getsockopt` on the same
handle, level `IPPROTO_TCP`, option `TCP_KEEPIDLE`, with a four-byte buffer.  The same
holds for the `Probes` pair with `TCP_KEEPCNT` and the `Intvl` pair with
`TCP_KEEPINTVL`. -/
theorem C9_keepalive_roundtrip (h : Host) (fileDesc V optval0 : Int) (s : State)
    (hV : -2 ^ 31 ≤ V ∧ V < 2 ^ 31) :
    ((Java_sun_net_ExtendedOptionsImpl_setTcpKeepAliveTime h fileDesc V s).pending = none →
      h.getOpt (getFD h fileDesc (Java_sun_net_ExtendedOptionsImpl_setTcpKeepAliveTime h fileDesc V s)).2
        (getFD h fileDesc (Java_sun_net_ExtendedOptionsImpl_setTcpKeepAliveTime h fileDesc V s)).1
        IPPROTO_TCP TCP_KEEPIDLE = Outcome.success →
      (Java_sun_net_ExtendedOptionsImpl_getTcpKeepAliveTime h fileDesc optval0
        (Java_sun_net_ExtendedOptionsImpl_setTcpKeepAliveTime h fileDesc V s)).1 = V ∧
      (Java_sun_net_ExtendedOptionsImpl_getTcpKeepAliveTime h fileDesc optval0
        (Java_sun_net_ExtendedOptionsImpl_setTcpKeepAliveTime h fileDesc V s)).2.pending = none ∧
      (Java_sun_net_ExtendedOptionsImpl_getTcpKeepAliveTime h fileDesc optval0
        (Java_sun_net_ExtendedOptionsImpl_setTcpKeepAliveTime h fileDesc V s)).2.calls = s.calls ++
        [⟨Call.setsockopt (h.intField fileDesc s.sf_fd_fdID) IPPROTO_TCP TCP_KEEPIDLE V
            sizeof_jint 0, s.lastError⟩,
         ⟨Call.getsockopt (h.intField fileDesc s.sf_fd_fdID) IPPROTO_TCP TCP_KEEPIDLE
            sizeof_jint 0, s.lastError⟩]) ∧
    ((Java_sun_net_ExtendedOptionsImpl_setTcpKeepAliveProbes h fileDesc V s).pending = none →
      h.getOpt (getFD h fileDesc (Java_sun_net_ExtendedOptionsImpl_setTcpKeepAliveProbes h fileDesc V s)).2
        (getFD h fileDesc (Java_sun_net_ExtendedOptionsImpl_setTcpKeepAliveProbes h fileDesc V s)).1
        IPPROTO_TCP TCP_KEEPCNT = Outcome.success →
      (Java_sun_net_ExtendedOptionsImpl_getTcpKeepAliveProbes h fileDesc optval0
        (Java_sun_net_ExtendedOptionsImpl_setTcpKeepAliveProbes h fileDesc V s)).1 = V ∧
      (Java_sun_net_ExtendedOptionsImpl_getTcpKeepAliveProbes h fileDesc optval0
        (Java_sun_net_ExtendedOptionsImpl_setTcpKeepAliveProbes h fileDesc V s)).2.pending = none ∧
      (Java_sun_net_ExtendedOptionsImpl_getTcpKeepAliveProbes h fileDesc optval0
        (Java_sun_net_ExtendedOptionsImpl_setTcpKeepAliveProbes h fileDesc V s)).2.calls = s.calls ++
        [⟨Call.setsockopt (h.intField fileDesc s.sf_fd_fdID) IPPROTO_TCP TCP_KEEPCNT V
            sizeof_jint 0, s.lastError⟩,
         ⟨Call.getsockopt (h.intField fileDesc s.sf_fd_fdID) IPPROTO_TCP TCP_KEEPCNT
            sizeof_jint 0, s.lastError⟩]) ∧
    ((Java_sun_net_ExtendedOptionsImpl_setTcpKeepAliveIntvl h fileDesc V s).pending = none →
      h.getOpt (getFD h fileDesc (Java_sun_net_ExtendedOptionsImpl_setTcpKeepAliveIntvl h fileDesc V s)).2
        (getFD h fileDesc (Java_sun_net_ExtendedOptionsImpl_setTcpKeepAliveIntvl h fileDesc V s)).1
        IPPROTO_TCP TCP_KEEPINTVL = Outcome.success →
      (Java_sun_net_ExtendedOptionsImpl_getTcpKeepAliveIntvl h fileDesc optval0
        (Java_sun_net_ExtendedOptionsImpl_setTcpKeepAliveIntvl h fileDesc V s)).1 = V ∧
      (Java_sun_net_ExtendedOptionsImpl_getTcpKeepAliveIntvl h fileDesc optval0
        (Java_sun_net_ExtendedOptionsImpl_setTcpKeepAliveIntvl h fileDesc V s)).2.pending = none ∧
      (Java_sun_net_ExtendedOptionsImpl_getTcpKeepAliveIntvl h fileDesc optval0
        (Java_sun_net_ExtendedOptionsImpl_setTcpKeepAliveIntvl h fileDesc V s)).2.calls = s.calls ++
        [⟨Call.setsockopt (h.intField fileDesc s.sf_fd_fdID) IPPROTO_TCP TCP_KEEPINTVL V
            sizeof_jint 0, s.lastError⟩,
         ⟨Call.getsockopt (h.intField fileDesc s.sf_fd_fdID) IPPROTO_TCP TCP_KEEPINTVL
            sizeof_jint 0, s.lastError⟩]) := by
  refine ⟨?_, ?_, ?_⟩
  · intro hset hget
    exact roundtrip_core h fileDesc TCP_KEEPIDLE V optval0 s _
      "set option TCP_KEEPIDLE failed" "get option TCP_KEEPIDLE failed" hV rfl hset hget
  · intro hset hget
    exact roundtrip_core h fileDesc TCP_KEEPCNT V optval0 s _
      "set option TCP_KEEPCNT failed" "get option TCP_KEEPCNT failed" hV rfl hset hget
  · intro hset hget
    exact roundtrip_core h fileDesc TCP_KEEPINTVL V optval0 s _
      "set option TCP_KEEPINTVL failed" "get option TCP_KEEPINTVL failed" hV rfl hset hget

/-- C9 at a concrete run: descriptor object 7 holds the open handle 107, every call
succeeds, no setter raises, and the value -5 is written and read back through each of
the three pairs. -/
theorem C9_keepalive_roundtrip_witness :
    ((Java_sun_net_ExtendedOptionsImpl_getTcpKeepAliveTime obligingHost 7 99
        (Java_sun_net_ExtendedOptionsImpl_setTcpKeepAliveTime obligingHost 7 (-5) connected)).1 = -5 ∧
      (Java_sun_net_ExtendedOptionsImpl_getTcpKeepAliveTime obligingHost 7 99
        (Java_sun_net_ExtendedOptionsImpl_setTcpKeepAliveTime obligingHost 7 (-5) connected)).2.pending = none ∧
      (Java_sun_net_ExtendedOptionsImpl_getTcpKeepAliveTime obligingHost 7 99
        (Java_sun_net_ExtendedOptionsImpl_setTcpKeepAliveTime obligingHost 7 (-5) connected)).2.calls =
        [⟨Call.setsockopt 107 IPPROTO_TCP TCP_KEEPIDLE (-5) sizeof_jint 0, 0⟩,
         ⟨Call.getsockopt 107 IPPROTO_TCP TCP_KEEPIDLE sizeof_jint 0, 0⟩]) ∧
    ((Java_sun_net_ExtendedOptionsImpl_getTcpKeepAliveProbes obligingHost 7 99
        (Java_sun_net_ExtendedOptionsImpl_setTcpKeepAliveProbes obligingHost 7 (-5) connected)).1 = -5 ∧
      (Java_sun_net_ExtendedOptionsImpl_getTcpKeepAliveProbes obligingHost 7 99
        (Java_sun_net_ExtendedOptionsImpl_setTcpKeepAliveProbes obligingHost 7 (-5) connected)).2.pending = none ∧
      (Java_sun_net_ExtendedOptionsImpl_getTcpKeepAliveProbes obligingHost 7 99
        (Java_sun_net_ExtendedOptionsImpl_setTcpKeepAliveProbes obligingHost 7 (-5) connected)).2.calls =
        [⟨Call.setsockopt 107 IPPROTO_TCP TCP_KEEPCNT (-5) sizeof_jint 0, 0⟩,
         ⟨Call.getsockopt 107 IPPROTO_TCP TCP_KEEPCNT sizeof_jint 0, 0⟩]) ∧
    ((Java_sun_net_ExtendedOptionsImpl_getTcpKeepAliveIntvl obligingHost 7 99
        (Java_sun_net_ExtendedOptionsImpl_setTcpKeepAliveIntvl obligingHost 7 (-5) connected)).1 = -5 ∧
      (Java_sun_net_ExtendedOptionsImpl_getTcpKeepAliveIntvl obligingHost 7 99
        (Java_sun_net_ExtendedOptionsImpl_setTcpKeepAliveIntvl obligingHost 7 (-5) connected)).2.pending = none ∧
      (Java_sun_net_ExtendedOptionsImpl_getTcpKeepAliveIntvl obligingHost 7 99
        (Java_sun_net_ExtendedOptionsImpl_setTcpKeepAliveIntvl obligingHost 7 (-5) connected)).2.calls =
        [⟨Call.setsockopt 107 IPPROTO_TCP TCP_KEEPINTVL (-5) sizeof_jint 0, 0⟩,
         ⟨Call.getsockopt 107 IPPROTO_TCP TCP_KEEPINTVL sizeof_jint 0, 0⟩]) :=
  ⟨(C9_keepalive_roundtrip obligingHost 7 (-5) 99 connected (by decide)).1
      (by decide) rfl,
   (C9_keepalive_roundtrip obligingHost 7 (-5) 99 connected (by decide)).2.1
      (by decide) rfl,
   (C9_keepalive_roundtrip obligingHost 7 (-5) 99 connected (by decide)).2.2
      (by decide) rfl⟩

/-- C9 as worded fails: on `starvedHost` the handle 107 of descriptor object 7 is
open, `setTcpKeepAliveTime` stores the 32-bit value -5 and raises nothing, yet the
`getTcpKeepAliveTime` that follows does not return -5: its `getsockopt` fails with
`WSAENOBUFS`, so it returns the untouched local (here 99) and a `SocketException` is
pending. -/
theorem C9_roundtrip_counterexample :
    starvedHost.intField 7 connected.sf_fd_fdID = 107 ∧ (107 : Int) ∈ connected.sockets ∧
    (-2 ^ 31 ≤ (-5 : Int) ∧ (-5 : Int) < 2 ^ 31) ∧
    (Java_sun_net_ExtendedOptionsImpl_setTcpKeepAliveTime starvedHost 7 (-5) connected).pending
      = none ∧
    (Java_sun_net_ExtendedOptionsImpl_setTcpKeepAliveTime starvedHost 7 (-5) connected).sockopts
      = [((107, IPPROTO_TCP, TCP_KEEPIDLE), bitsOfJint (-5) sizeof_jint)] ∧
    (Java_sun_net_ExtendedOptionsImpl_getTcpKeepAliveTime starvedHost 7 99
      (Java_sun_net_ExtendedOptionsImpl_setTcpKeepAliveTime starvedHost 7 (-5) connected)).1
      ≠ -5 ∧
    (Java_sun_net_ExtendedOptionsImpl_getTcpKeepAliveTime starvedHost 7 99
      (Java_sun_net_ExtendedOptionsImpl_setTcpKeepAliveTime starvedHost 7 (-5) connected)).2.pending
      = some ⟨"java/net/SocketException", "get option TCP_KEEPIDLE failed", some WSAENOBUFS⟩ := by
  decide

end ExtendedOptions
